import Mathlib

/-!
DongmenDB shell: command dispatch and result rendering.

A shallow embedding of `src/shell/commands.c` (with `commands.h`).

* A C string is a `String`; one `Char` stands for one `char` of the C string.
* `int` values are mathematical integers (`Int`); `/` and `%` on them are the truncating
  `Int.tdiv` and `Int.tmod`, as in C. The subtraction `coltype - 13` is exact, which is what
  the C code computes whenever it does not overflow.
* The global streams are the fields `stdout` and `stderr` of `World`; every call of an engine
  collaborator (open, close, prepare, step, finalize, parser, optimizer, table manager) is
  appended to `World.calls` in program order.
* A `dongmengdb *` obtained from `malloc` is the number of the allocation.
* `exit(0)` is the outcome `Outcome.exited 0`; a `return rc` is `Outcome.returned rc`.
-/

namespace DongmenDB

/-! ## Constants and types that the sources only use -/

/-- Modelled from the spec: the engine header defining `DONGMENGDB_OK` is not among the
sources. The spec has every failure "return non-zero" and success is the zero status. -/
def DONGMENGDB_OK : Int := 0

/-- Modelled from the spec: `shell.h` is not among the sources. Section 3 of the spec gives the
display mode as an enumeration of `LIST` and `COLUMN`. -/
inductive shell_mode where
  | MODE_LIST
  | MODE_COLUMN
  deriving DecidableEq, Repr

/-- The remaining macros of the engine headers that `commands.c` uses. Their values are not in
the sources, so they are parameters of the embedding. -/
structure Macros where
  DONGMENGDB_ROW : Int
  DONGMENGDB_ECONSTRAINT : Int
  DONGMENGDB_EMISMATCH : Int
  DONGMENGDB_EMISUSE : Int
  DONGMENGDB_ERROR_IO : Int
  DONGMENGDB_EINVALIDSQL : Int
  DONGMENGDB_ENOMEM : Int
  SQL_NOTVALID : Int
  SQL_INTEGER_1BYTE : Int
  SQL_INTEGER_2BYTE : Int
  SQL_INTEGER_4BYTE : Int
  SQL_NULL : Int

/-- The tags that the column loop tests by name are pairwise different where the order of the
tests matters: the null tag is neither the invalid tag nor an integer tag. -/
def Macros.null_distinct (M : Macros) : Prop :=
  M.SQL_NULL ≠ M.SQL_NOTVALID ∧ M.SQL_NULL ≠ M.SQL_INTEGER_1BYTE ∧
    M.SQL_NULL ≠ M.SQL_INTEGER_2BYTE ∧ M.SQL_NULL ≠ M.SQL_INTEGER_4BYTE

instance (M : Macros) : Decidable M.null_distinct := by
  unfold Macros.null_distinct; infer_instance

/-- One result row as the column accessors `dongmengdb_column_type`, `dongmengdb_column_int`
and `dongmengdb_column_text` present it while the statement is positioned on the row. -/
structure Row where
  column_type : Nat → Int
  column_int : Nat → Int
  column_text : Nat → String

/-- A prepared statement as the shell observes it: `dongmengdb_column_count`,
`dongmengdb_column_name`, the rows for which `dongmengdb_step` returns `DONGMENGDB_ROW`, the
first status other than `DONGMENGDB_ROW` that `dongmengdb_step` returns (`done`), and the status
of `dongmengdb_finalize`. -/
structure dongmengdb_stmt where
  column_count : Int
  column_name : Nat → String
  rows : List Row
  done : Int
  finalize : Int

/-- A parsed statement (`dongmengsql_statement_t`), opaque to the shell. -/
structure dongmengsql_statement_t where
  id : Nat
  deriving DecidableEq, Repr

/-- The external collaborators of the shell, with the macros of their headers. The field
`dongmengsql_parser_fn` is the function that the source calls `dongmengsql_parser`. -/
structure Engine extends Macros where
  dongmengdb_tokenize : String → List String
  dongmengdb_open : String → Nat → Int
  dongmengdb_prepare : Option Nat → String → Int × dongmengdb_stmt
  dongmengsql_parser_fn : String → Int × dongmengsql_statement_t
  dongmengsql_stmt_print : dongmengsql_statement_t → String
  dongmengdb_stmt_optimize : Nat → dongmengsql_statement_t → Int × dongmengsql_statement_t

/-- The session context `dongmengdb_shell_handle_sql_t`: `db` and `dbfile` are pointers
(`none` is `NULL`). -/
structure dongmengdb_shell_handle_sql_t where
  db : Option Nat
  dbfile : Option String
  header : Bool
  mode : shell_mode
  deriving DecidableEq, Repr

/-- A call of an engine collaborator, with the status it returned where it has one. -/
inductive Call where
  | dongmengdb_open (file : String) (db : Nat) (rc : Int)
  | dongmengdb_close (db : Nat)
  | dongmengdb_prepare (db : Option Nat) (sql : String) (rc : Int)
  | dongmengdb_step (rc : Int)
  | dongmengdb_finalize (rc : Int)
  | dongmengsql_parser_fn (sql : String) (rc : Int)
  | dongmengsql_stmt_print (stmt : dongmengsql_statement_t)
  | dongmengdb_stmt_optimize (db : Nat) (rc : Int)
  | table_manager_get_tableinfo (db : Nat) (token : Option String)
  deriving DecidableEq, Repr

/-- Everything a handler can read or change: the session, the two output streams, the
collaborator calls made so far and the number of `dongmengdb` objects allocated so far. -/
structure World where
  ctx : dongmengdb_shell_handle_sql_t
  stdout : String
  stderr : String
  calls : List Call
  next_db : Nat
  deriving DecidableEq, Repr

/-- How a handler ends: it returns a status to its caller or it terminates the process. -/
inductive Outcome where
  | returned (rc : Int)
  | exited (status : Int)
  deriving DecidableEq, Repr

/-! ## The registry (`commands.h`, `handlers[]`) -/

/-- The nine handler functions a `handler_entry` can point to. -/
inductive handler_function where
  | cmd_open
  | cmd_parse
  | cmd_opt
  | cmd_headers
  | cmd_mode
  | cmd_explain
  | cmd_help
  | cmd_exit
  | cmd_desc
  deriving DecidableEq, Repr

/-- The descriptor `struct handler_entry`. -/
structure handler_entry where
  name : String
  help : String
  name_len : Nat
  func : handler_function
  deriving DecidableEq, Repr

/-- The macro `HANDLER_ENTRY(NAME, HELP)`: `name_len` is `sizeof #NAME - 1`. -/
def HANDLER_ENTRY (name : String) (func : handler_function) (help : String) : handler_entry :=
  { name := name, help := help, name_len := name.length, func := func }

/-- The table `handlers[]`, without its terminating `NULL_ENTRY`. -/
def handlers : List handler_entry :=
  [ HANDLER_ENTRY "open" .cmd_open
      ".open FILENAME     Close existing database (if any) and open FILENAME",
    HANDLER_ENTRY "parse" .cmd_parse
      ".parse \"SQL\"       Show parse tree for statement SQL",
    HANDLER_ENTRY "opt" .cmd_opt
      ".optimizer \"SQL\"       Show parse tree and optimized parse tree for statement SQL",
    HANDLER_ENTRY "headers" .cmd_headers
      ".headers on|off    Switch display of headers on or off in query results",
    HANDLER_ENTRY "mode" .cmd_mode
      (".mode MODE         Switch display mode. MODE is one of:\n" ++
       "                     column  Left-aligned columns\n" ++
       "                     list    Values delimited by | (default)"),
    HANDLER_ENTRY "explain" .cmd_explain
      ".explain on|off    Turn output mode suitable for EXPLAIN on or off.",
    HANDLER_ENTRY "help" .cmd_help
      ".help              Show this message",
    HANDLER_ENTRY "exit" .cmd_exit
      ".exit              exit shell",
    HANDLER_ENTRY "desc" .cmd_desc
      ".desc TABLENAME    desc table" ]

/-! ## Output primitives -/

/-- The macro `COL_SEPARATOR`. -/
def COL_SEPARATOR : String := "|"

/-- Appends to standard output (`printf`). -/
def World.print (w : World) (s : String) : World :=
  { w with stdout := w.stdout ++ s }

/-- Appends to standard error (`fprintf(stderr, ...)`). -/
def World.eprint (w : World) (s : String) : World :=
  { w with stderr := w.stderr ++ s }

/-- Records a collaborator call. -/
def World.call (w : World) (c : Call) : World :=
  { w with calls := w.calls ++ [c] }

/-- The conversion `%i` of `printf`. -/
def printf_i (n : Int) : String :=
  if n < 0 then "-" ++ Nat.repr n.natAbs else Nat.repr n.natAbs

/-- The conversion `%10i`: right-justified in a field of at least 10 characters. -/
def printf_10i (n : Int) : String :=
  String.mk (List.replicate (10 - (printf_i n).length) ' ') ++ printf_i n

/-- The conversion `%-10.10s`: at most 10 characters of the string, left-justified in a field
of 10 characters. -/
def printf_s10 (s : String) : String :=
  String.mk (s.data.take 10 ++ List.replicate (10 - (s.data.take 10).length) ' ')

/-- The function `usage_error`. -/
def usage_error (e : handler_entry) (msg : String) (w : World) : World :=
  (w.eprint ("ERROR: " ++ msg ++ "\n")).eprint (e.help ++ "\n")

/-! ## The result renderer (`dongmengdb_shell_handle_sql`) -/

/-- The separator printed before column `i` (`printf(i==0?"":COL_SEPARATOR)` in list mode,
`printf(i==0?"":" ")` in column mode). -/
def column_separator (mode : shell_mode) (i : Nat) : String :=
  match mode with
  | .MODE_LIST => if i = 0 then "" else COL_SEPARATOR
  | .MODE_COLUMN => if i = 0 then "" else " "

/-- The body of the first header loop (lines 104-116) at index `i`. -/
def header_name (mode : shell_mode) (stmt : dongmengdb_stmt) (i : Nat) : String :=
  match mode with
  | .MODE_LIST => column_separator .MODE_LIST i ++ stmt.column_name i
  | .MODE_COLUMN => column_separator .MODE_COLUMN i ++ printf_s10 (stmt.column_name i)

/-- The body of the second header loop (lines 121-125) at index `i`. -/
def header_rule (i : Nat) : String :=
  (if i = 0 then "" else " ") ++ "----------"

/-- The header emission (lines 104-127) for `numcol` columns. -/
def print_header (mode : shell_mode) (stmt : dongmengdb_stmt) (numcol : Int) : String :=
  String.join ((List.range numcol.toNat).map (header_name mode stmt)) ++ "\n" ++
    (match mode with
     | .MODE_LIST => ""
     | .MODE_COLUMN => String.join ((List.range numcol.toNat).map header_rule) ++ "\n")

/-- The text of `printf("ERROR: Column %i return an invalid type.\n", coltype)` (line 146). -/
def notvalid_message (coltype : Int) : String :=
  "ERROR: Column " ++ printf_i coltype ++ " return an invalid type.\n"

/-- The text of `printf("ERROR: Column %i returned an invalid type.\n", i)` (line 167). -/
def invalid_type_message (i : Int) : String :=
  "ERROR: Column " ++ printf_i i ++ " returned an invalid type.\n"

/-- The text of the `printf` of line 174, for the length `len`, the column `i` and the tag
`coltype`. -/
def length_message (len i coltype : Int) : String :=
  "ERROR: THe length (" ++ printf_i len ++ ") of the text in column " ++ printf_i i ++
    " does not match its type (" ++ printf_i coltype ++ ").\n"

/-- The type switch of one iteration of the column loop (lines 142-182) at index `i`: what
it prints, and whether the loop goes on to `i + 1` (`false` is `break`). -/
def render_value (M : Macros) (mode : shell_mode) (row : Row) (i : Nat) : String × Bool :=
  let coltype := row.column_type i
  if coltype = M.SQL_NOTVALID then (notvalid_message coltype, false)
  else if coltype = M.SQL_INTEGER_1BYTE ∨ coltype = M.SQL_INTEGER_2BYTE ∨
      coltype = M.SQL_INTEGER_4BYTE then
    match mode with
    | .MODE_LIST => (printf_i (row.column_int i), true)
    | .MODE_COLUMN => (printf_10i (row.column_int i), true)
  else if coltype = M.SQL_NULL then
    match mode with
    | .MODE_LIST => ("", true)
    | .MODE_COLUMN => ("          ", true)
  else if Int.tmod (coltype - 13) 2 ≠ 0 then (invalid_type_message i, false)
  else
    let text := row.column_text i
    let len : Int := text.length
    if len ≠ Int.tdiv (coltype - 13) 2 then (length_message len i coltype, false)
    else
      match mode with
      | .MODE_LIST => (text, true)
      | .MODE_COLUMN => (printf_s10 text, true)

/-- One iteration of the column loop (lines 134-182) at index `i`: the separator (lines
136-139), then the type switch. -/
def render_column (M : Macros) (mode : shell_mode) (row : Row) (i : Nat) : String × Bool :=
  (column_separator mode i ++ (render_value M mode row i).1, (render_value M mode row i).2)

/-- The column loop `for(int i = 0; i < numcol; i++)` of one row, entered at index `i` with
`n` iterations left. -/
def render_columns (M : Macros) (mode : shell_mode) (row : Row) : Nat → Nat → String
  | 0, _ => ""
  | n + 1, i =>
    if (render_column M mode row i).2 then
      (render_column M mode row i).1 ++ render_columns M mode row n (i + 1)
    else (render_column M mode row i).1

/-- The body of the `while` loop (lines 132-184) for one row: the columns, then a newline. -/
def render_row (M : Macros) (mode : shell_mode) (numcol : Int) (row : Row) : String :=
  render_columns M mode row numcol.toNat 0 ++ "\n"

/-- The `while` loop (lines 130-185) over the rows that `dongmengdb_step` yields. -/
def render_rows (M : Macros) (mode : shell_mode) (numcol : Int) : List Row → String
  | [] => ""
  | row :: rows => render_row M mode numcol row ++ render_rows M mode numcol rows

/-- The `switch(rc)` after the row loop (lines 187-201). -/
def step_message (M : Macros) (rc : Int) : String :=
  if rc = M.DONGMENGDB_ECONSTRAINT then
    "ERROR: SQL statement failed because of a constraint violation.\n"
  else if rc = M.DONGMENGDB_EMISMATCH then "ERROR: Data type mismatch.\n"
  else if rc = M.DONGMENGDB_EMISUSE then "ERROR: API used incorrectly.\n"
  else if rc = M.DONGMENGDB_ERROR_IO then
    "ERROR: An I/O error has occurred when accessing the file.\n"
  else ""

/-- The calls of `dongmengdb_step` made by the `while` loop: one returning `DONGMENGDB_ROW`
for each row, then the one returning `done`. -/
def step_calls (M : Macros) (stmt : dongmengdb_stmt) : List Call :=
  stmt.rows.map (fun _ => Call.dongmengdb_step M.DONGMENGDB_ROW) ++
    [Call.dongmengdb_step stmt.done]

/-- The function `dongmengdb_shell_handle_sql`. -/
def dongmengdb_shell_handle_sql (E : Engine) (sql : String) (w : World) : Int × World :=
  let prepared := E.dongmengdb_prepare w.ctx.db sql
  let rc := prepared.1
  let stmt := prepared.2
  let w := w.call (Call.dongmengdb_prepare w.ctx.db sql rc)
  if rc = DONGMENGDB_OK then
    let numcol := stmt.column_count
    let w := if w.ctx.header then w.print (print_header w.ctx.mode stmt numcol) else w
    let w := { w.print (render_rows E.toMacros w.ctx.mode numcol stmt.rows) with
               calls := w.calls ++ step_calls E.toMacros stmt }
    let rc := stmt.done
    let w := w.print (step_message E.toMacros rc)
    let rc := stmt.finalize
    let w := w.call (Call.dongmengdb_finalize rc)
    let w := if rc = E.DONGMENGDB_EMISUSE then w.print "API used incorrectly.\n" else w
    (rc, w)
  else if rc = E.DONGMENGDB_EINVALIDSQL then (rc, w.print "SQL syntax error.\n")
  else if rc = E.DONGMENGDB_ENOMEM then (rc, w.print "ERROR: Could not allocate memory.\n")
  else (rc, w)

/-! ## The handlers -/

/-- The function `dongmengdb_shell_handle_cmd_open`. -/
def dongmengdb_shell_handle_cmd_open (E : Engine) (e : handler_entry) (tokens : List String)
    (w : World) : Outcome × World :=
  let newdb := w.next_db
  let w := { w with next_db := w.next_db + 1 }
  if tokens.length ≠ 2 then (.returned 1, usage_error e "Invalid arguments" w)
  else
    let token := tokens.getD 1 ""
    let rc := E.dongmengdb_open token newdb
    let w := w.call (Call.dongmengdb_open token newdb rc)
    if rc ≠ DONGMENGDB_OK then
      (.returned rc,
        w.eprint ("ERROR: Could not open file " ++ token ++ " or file is not well formed.\n"))
    else
      let w := match w.ctx.db with
        | some db => w.call (Call.dongmengdb_close db)
        | none => w
      (.returned DONGMENGDB_OK,
        { w with ctx := { w.ctx with db := some newdb, dbfile := some token } })

/-- The function `dongmengdb_shell_handle_cmd_parse`. -/
def dongmengdb_shell_handle_cmd_parse (E : Engine) (e : handler_entry) (tokens : List String)
    (w : World) : Outcome × World :=
  if tokens.length ≠ 2 then (.returned 1, usage_error e "Invalid arguments" w)
  else
    let parsed := E.dongmengsql_parser_fn (tokens.getD 1 "")
    let rc := parsed.1
    let w := w.call (Call.dongmengsql_parser_fn (tokens.getD 1 "") rc)
    if rc ≠ DONGMENGDB_OK then (.returned rc, w)
    else
      let w := (w.call (Call.dongmengsql_stmt_print parsed.2)).print
        (E.dongmengsql_stmt_print parsed.2)
      (.returned DONGMENGDB_OK, w.print "\n")

/-- The function `dongmengdb_shell_handle_cmd_opt`. -/
def dongmengdb_shell_handle_cmd_opt (E : Engine) (e : handler_entry) (tokens : List String)
    (w : World) : Outcome × World :=
  if tokens.length ≠ 2 then (.returned 1, usage_error e "Invalid arguments" w)
  else
    match w.ctx.db with
    | none => (.returned 1, w.eprint "ERROR: No database is open.\n")
    | some db =>
      let parsed := E.dongmengsql_parser_fn (tokens.getD 1 "")
      let rc := parsed.1
      let w := w.call (Call.dongmengsql_parser_fn (tokens.getD 1 "") rc)
      if rc ≠ DONGMENGDB_OK then (.returned rc, w)
      else
        let w := (w.call (Call.dongmengsql_stmt_print parsed.2)).print
          (E.dongmengsql_stmt_print parsed.2)
        let w := w.print "\n\n"
        let optimized := E.dongmengdb_stmt_optimize db parsed.2
        let rc := optimized.1
        let w := w.call (Call.dongmengdb_stmt_optimize db rc)
        if rc ≠ DONGMENGDB_OK then (.returned rc, w)
        else
          let w := (w.call (Call.dongmengsql_stmt_print optimized.2)).print
            (E.dongmengsql_stmt_print optimized.2)
          (.returned DONGMENGDB_OK, w.print "\n")

/-- The function `dongmengdb_shell_handle_cmd_headers`. -/
def dongmengdb_shell_handle_cmd_headers (e : handler_entry) (tokens : List String)
    (w : World) : Outcome × World :=
  if tokens.length ≠ 2 then (.returned 1, usage_error e "Invalid arguments" w)
  else if tokens.getD 1 "" = "on" then
    (.returned DONGMENGDB_OK, { w with ctx := { w.ctx with header := true } })
  else if tokens.getD 1 "" = "off" then
    (.returned DONGMENGDB_OK, { w with ctx := { w.ctx with header := false } })
  else (.returned 1, usage_error e "Invalid argument" w)

/-- The function `dongmengdb_shell_handle_cmd_mode`. -/
def dongmengdb_shell_handle_cmd_mode (e : handler_entry) (tokens : List String)
    (w : World) : Outcome × World :=
  if tokens.length ≠ 2 then (.returned 1, usage_error e "Invalid arguments" w)
  else if tokens.getD 1 "" = "list" then
    (.returned DONGMENGDB_OK, { w with ctx := { w.ctx with mode := .MODE_LIST } })
  else if tokens.getD 1 "" = "column" then
    (.returned DONGMENGDB_OK, { w with ctx := { w.ctx with mode := .MODE_COLUMN } })
  else (.returned 1, usage_error e "Invalid argument" w)

/-- The function `dongmengdb_shell_handle_cmd_explain`. -/
def dongmengdb_shell_handle_cmd_explain (e : handler_entry) (tokens : List String)
    (w : World) : Outcome × World :=
  if tokens.length ≠ 2 then (.returned 1, usage_error e "Invalid arguments" w)
  else if tokens.getD 1 "" = "on" then
    (.returned DONGMENGDB_OK,
      { w with ctx := { w.ctx with header := true, mode := .MODE_COLUMN } })
  else if tokens.getD 1 "" = "off" then
    (.returned DONGMENGDB_OK,
      { w with ctx := { w.ctx with header := false, mode := .MODE_LIST } })
  else (.returned 1, usage_error e "Invalid argument" w)

/-- The function `dongmengdb_shell_handle_cmd_help`: one line of help per entry of
`handlers[]`, in table order. -/
def dongmengdb_shell_handle_cmd_help (w : World) : Outcome × World :=
  (.returned DONGMENGDB_OK, handlers.foldl (fun w h => w.eprint (h.help ++ "\n")) w)

/-- The function `dongmengdb_shell_handle_cmd_exit`. -/
def dongmengdb_shell_handle_cmd_exit (w : World) : Outcome × World :=
  match w.ctx.db with
  | some db => (.exited 0, w.call (Call.dongmengdb_close db))
  | none => (.exited 0, w)

/-- The function `dongmengdb_shell_handle_cmd_desc`. -/
def dongmengdb_shell_handle_cmd_desc (tokens : List String) (w : World) : Outcome × World :=
  match w.ctx.db with
  | some db =>
    (.returned DONGMENGDB_OK, w.call (Call.table_manager_get_tableinfo db (tokens.get? 1)))
  | none => (.returned DONGMENGDB_OK, w)

/-- The call `handlers[h].func(ctx, &handlers[h], tokens, ntokens)` through the function
pointer of the entry. -/
def handler_entry.call (E : Engine) (e : handler_entry) (tokens : List String) (w : World) :
    Outcome × World :=
  match e.func with
  | .cmd_open => dongmengdb_shell_handle_cmd_open E e tokens w
  | .cmd_parse => dongmengdb_shell_handle_cmd_parse E e tokens w
  | .cmd_opt => dongmengdb_shell_handle_cmd_opt E e tokens w
  | .cmd_headers => dongmengdb_shell_handle_cmd_headers e tokens w
  | .cmd_mode => dongmengdb_shell_handle_cmd_mode e tokens w
  | .cmd_explain => dongmengdb_shell_handle_cmd_explain e tokens w
  | .cmd_help => dongmengdb_shell_handle_cmd_help w
  | .cmd_exit => dongmengdb_shell_handle_cmd_exit w
  | .cmd_desc => dongmengdb_shell_handle_cmd_desc tokens w

/-! ## The dispatcher (`dongmengdb_shell_handle_cmd`) -/

/-- The test `strncmp(a, b, n) == 0` on strings without NUL: equal up to `n` characters. -/
def strncmp_eq (a b : List Char) (n : Nat) : Bool :=
  a.take n == b.take n

/-- The scan `for(h=0; handlers[h].name != NULL; h++)` (lines 49-56): the first entry whose
name matches `tokens[0]+1`, if there is one. -/
def find_handler (token1 : List Char) : List handler_entry → Option handler_entry
  | [] => none
  | e :: es => if strncmp_eq token1 e.name.data e.name_len then some e else find_handler token1 es

/-- The function `dongmengdb_shell_handle_cmd`. -/
def dongmengdb_shell_handle_cmd (E : Engine) (cmd : String) (w : World) : Outcome × World :=
  if cmd.data.head? = some '.' then
    let tokens := E.dongmengdb_tokenize cmd
    match find_handler ((tokens.headD "").data.drop 1) handlers with
    | some e => e.call E tokens w
    | none =>
      (.returned 1, w.eprint ("ERROR: Unrecognized command: " ++ tokens.headD "" ++ "\n"))
  else
    match w.ctx.db with
    | none => (.returned 1, w.eprint "ERROR: No database is open.\n")
    | some _ =>
      let r := dongmengdb_shell_handle_sql E cmd w
      (.returned r.1, r.2)

/-! ## Observations on the call log -/

/-- The effect of one collaborator call on the list of databases the engine has open: a
successful `dongmengdb_open` adds its database, `dongmengdb_close` removes it. -/
def track_call (live : List Nat) (c : Call) : List Nat :=
  match c with
  | .dongmengdb_open _ db rc => if rc = DONGMENGDB_OK then live ++ [db] else live
  | .dongmengdb_close db => live.filter (fun h => h ≠ db)
  | _ => live

/-- The databases the engine has open after a sequence of collaborator calls. -/
def open_handles (calls : List Call) : List Nat :=
  calls.foldl track_call []

/-! ## A concrete engine, for evaluating the embedding on examples -/

/-- Sample values for the macros: the statuses differ from each other, and so do the tags. -/
def sample_macros : Macros :=
  { DONGMENGDB_ROW := 100
    DONGMENGDB_ECONSTRAINT := 5
    DONGMENGDB_EMISMATCH := 6
    DONGMENGDB_EMISUSE := 8
    DONGMENGDB_ERROR_IO := 7
    DONGMENGDB_EINVALIDSQL := 1
    DONGMENGDB_ENOMEM := 2
    SQL_NOTVALID := -1
    SQL_INTEGER_1BYTE := 1
    SQL_INTEGER_2BYTE := 2
    SQL_INTEGER_4BYTE := 4
    SQL_NULL := 0 }

/-- Splits a line at blanks (a stand-in for `dongmengdb_tokenize` on lines without quotes). -/
def split_blanks : List Char → List Char → List String
  | [], cur => if cur = [] then [] else [String.mk cur]
  | c :: cs, cur =>
    if c = ' ' then
      (if cur = [] then split_blanks cs [] else String.mk cur :: split_blanks cs [])
    else split_blanks cs (cur ++ [c])

/-- A row of two columns: the 4-byte integer 7 and the 3-character text `ann` (tag 19). -/
def sample_row : Row :=
  { column_type := fun i => if i = 0 then 4 else 19
    column_int := fun _ => 7
    column_text := fun _ => "ann" }

/-- A row whose columns all carry the tag 11 and the empty text. -/
def row_tag_11 : Row :=
  { column_type := fun _ => 11
    column_int := fun _ => 0
    column_text := fun _ => "" }

/-- A row of three columns: the integer 7, a null, the integer 7. -/
def row_with_null : Row :=
  { column_type := fun i => if i = 1 then 0 else 4
    column_int := fun _ => 7
    column_text := fun _ => "" }

/-- A statement with the columns `id` and `name` and one row. -/
def sample_stmt : dongmengdb_stmt :=
  { column_count := 2
    column_name := fun i => if i = 0 then "id" else "name"
    rows := [sample_row]
    done := 101
    finalize := 0 }

/-- An engine that opens every file except `missing.db` (status 3), prepares every statement
to `sample_stmt`, and parses and optimizes every statement successfully. -/
def sample_engine : Engine :=
  { toMacros := sample_macros
    dongmengdb_tokenize := fun line => split_blanks line.data []
    dongmengdb_open := fun file _ => if file = "missing.db" then 3 else 0
    dongmengdb_prepare := fun _ _ => (0, sample_stmt)
    dongmengsql_parser_fn := fun _ => (0, { id := 0 })
    dongmengsql_stmt_print := fun _ => "stmt"
    dongmengdb_stmt_optimize := fun _ t => (0, t) }

/-- A fresh session: no database, headers off, list mode. -/
def sample_world : World :=
  { ctx := { db := none, dbfile := none, header := false, mode := .MODE_LIST }
    stdout := ""
    stderr := ""
    calls := []
    next_db := 0 }

/-- The descriptor of `.open` in `handlers[]`. -/
def sample_entry : handler_entry :=
  HANDLER_ENTRY "open" .cmd_open
    ".open FILENAME     Close existing database (if any) and open FILENAME"

/-- A row of three columns: the integer 7, a column with the invalid tag, the integer 7. -/
def row_notvalid_at_1 : Row :=
  { column_type := fun i => if i = 1 then -1 else 4
    column_int := fun _ => 7
    column_text := fun _ => "" }

/-- A row whose columns carry the text tag 19 (decoded length 3) and the 2-character text
`ab`. -/
def row_short_text : Row :=
  { column_type := fun _ => 19
    column_int := fun _ => 0
    column_text := fun _ => "ab" }

/-- A row whose columns are 4-byte integers holding the least 32-bit value. -/
def row_int_min : Row :=
  { column_type := fun _ => 4
    column_int := fun _ => -2147483648
    column_text := fun _ => "" }

/-- A statement without rows whose `dongmengdb_step` ends with the constraint status 5 and
whose `dongmengdb_finalize` returns 0. -/
def constraint_stmt : dongmengdb_stmt :=
  { column_count := 1
    column_name := fun _ => "id"
    rows := []
    done := 5
    finalize := 0 }

/-- The sample engine, preparing every statement to `constraint_stmt`. -/
def constraint_engine : Engine :=
  { sample_engine with dongmengdb_prepare := fun _ _ => (0, constraint_stmt) }

/-- The sample engine, with a prepare that fails with the status 1 (invalid SQL). -/
def invalid_sql_engine : Engine :=
  { sample_engine with dongmengdb_prepare := fun _ _ => (1, sample_stmt) }

/-- The sample engine, with an open that also refuses the empty path. -/
def strict_engine : Engine :=
  { sample_engine with
    dongmengdb_open := fun file _ => if file = "" ∨ file = "missing.db" then 3 else 0 }

/-- Splits a line at blanks, taking a token that starts with `"` up to the next `"` and
without the quotes, so that a quoted argument is one token (a stand-in for
`dongmengdb_tokenize` on lines with quotes). The state is 0 between tokens, 1 inside a plain
token and 2 inside a quoted one. -/
def split_quoted : List Char → Nat → List Char → List String
  | [], 0, _ => []
  | [], _ + 1, cur => [String.mk cur]
  | c :: cs, 0, _ =>
    if c = ' ' then split_quoted cs 0 []
    else if c = '"' then split_quoted cs 2 []
    else split_quoted cs 1 [c]
  | c :: cs, 1, cur =>
    if c = ' ' then String.mk cur :: split_quoted cs 0 []
    else split_quoted cs 1 (cur ++ [c])
  | c :: cs, _ + 2, cur =>
    if c = '"' then String.mk cur :: split_quoted cs 0 []
    else split_quoted cs 2 (cur ++ [c])

/-- The sample engine (which opens every file but `missing.db`), with the tokenizer that
understands quotes. -/
def quoting_engine : Engine :=
  { sample_engine with dongmengdb_tokenize := fun line => split_quoted line.data 0 [] }

/-- The descriptor of `.desc` in `handlers[]`. -/
def desc_entry : handler_entry :=
  HANDLER_ENTRY "desc" .cmd_desc ".desc TABLENAME    desc table"

/-- The descriptor of `.opt` in `handlers[]`. -/
def opt_entry : handler_entry :=
  HANDLER_ENTRY "opt" .cmd_opt
    ".optimizer \"SQL\"       Show parse tree and optimized parse tree for statement SQL"

/-! ## Theorems -/

/-- C1. With two tokens `.mode ARG`: for `list` and for `column` the mode handler returns 0
and the display mode is afterwards the one named (the rest of the session is untouched); for
every other `ARG` it returns the non-zero status 1 and the session, display mode included, is
as before. -/
theorem mode_handler_sets_display_mode (e : handler_entry) (t0 arg : String) (w : World) :
    (arg = "list" →
      dongmengdb_shell_handle_cmd_mode e [t0, arg] w =
        (.returned 0, { w with ctx := { w.ctx with mode := .MODE_LIST } })) ∧
    (arg = "column" →
      dongmengdb_shell_handle_cmd_mode e [t0, arg] w =
        (.returned 0, { w with ctx := { w.ctx with mode := .MODE_COLUMN } })) ∧
    (arg ≠ "list" → arg ≠ "column" →
      (dongmengdb_shell_handle_cmd_mode e [t0, arg] w).1 = .returned 1 ∧
      (1 : Int) ≠ 0 ∧
      (dongmengdb_shell_handle_cmd_mode e [t0, arg] w).2.ctx = w.ctx) := by
  refine ⟨?_, ?_, ?_⟩
  · intro h
    subst h
    simp [dongmengdb_shell_handle_cmd_mode, DONGMENGDB_OK]
  · intro h
    subst h
    simp [dongmengdb_shell_handle_cmd_mode, DONGMENGDB_OK]
  · intro h1 h2
    simp [dongmengdb_shell_handle_cmd_mode, h1, h2, usage_error, World.eprint]

/-- C1, evaluated: `.mode column` on a fresh session, and `.mode tabs`, which is refused. -/
theorem mode_handler_sets_display_mode_witness :
    dongmengdb_shell_handle_cmd_mode sample_entry [".mode", "column"] sample_world =
        (.returned 0,
          { sample_world with ctx := { sample_world.ctx with mode := .MODE_COLUMN } }) ∧
    ((dongmengdb_shell_handle_cmd_mode sample_entry [".mode", "tabs"] sample_world).1 =
        .returned 1 ∧
      (1 : Int) ≠ 0 ∧
      (dongmengdb_shell_handle_cmd_mode sample_entry [".mode", "tabs"] sample_world).2.ctx =
        sample_world.ctx) :=
  ⟨(mode_handler_sets_display_mode sample_entry ".mode" "column" sample_world).2.1 rfl,
   (mode_handler_sets_display_mode sample_entry ".mode" "tabs" sample_world).2.2
     (by decide) (by decide)⟩

/-- C2. From every session, `.explain on` ends in the same state and with the same status as
`.headers on` followed by `.mode column`, and `.explain off` as `.headers off` followed by
`.mode list`; the `.headers` step itself returns `DONGMENGDB_OK`. -/
theorem explain_is_headers_then_mode (ex eh em : handler_entry) (tx th tm : String)
    (w : World) :
    (dongmengdb_shell_handle_cmd_explain ex [tx, "on"] w =
        dongmengdb_shell_handle_cmd_mode em [tm, "column"]
          (dongmengdb_shell_handle_cmd_headers eh [th, "on"] w).2 ∧
      (dongmengdb_shell_handle_cmd_headers eh [th, "on"] w).1 = .returned DONGMENGDB_OK) ∧
    (dongmengdb_shell_handle_cmd_explain ex [tx, "off"] w =
        dongmengdb_shell_handle_cmd_mode em [tm, "list"]
          (dongmengdb_shell_handle_cmd_headers eh [th, "off"] w).2 ∧
      (dongmengdb_shell_handle_cmd_headers eh [th, "off"] w).1 = .returned DONGMENGDB_OK) := by
  refine ⟨⟨?_, ?_⟩, ⟨?_, ?_⟩⟩ <;>
    simp [dongmengdb_shell_handle_cmd_explain, dongmengdb_shell_handle_cmd_mode,
      dongmengdb_shell_handle_cmd_headers]

/-- C6. With no open database, a line that is empty or does not start with `.` makes
`dongmengdb_shell_handle_cmd` return the non-zero status 1 and print
`ERROR: No database is open.` on standard error; no collaborator is called (no prepare, step
or finalize), nothing is printed on standard output and the session is unchanged. -/
theorem sql_without_database_is_refused (E : Engine) (cmd : String) (w : World)
    (hdb : w.ctx.db = none) (hcmd : cmd.data.head? ≠ some '.') :
    (dongmengdb_shell_handle_cmd E cmd w).1 = .returned 1 ∧
    (1 : Int) ≠ 0 ∧
    (dongmengdb_shell_handle_cmd E cmd w).2.stderr =
      w.stderr ++ "ERROR: No database is open.\n" ∧
    (dongmengdb_shell_handle_cmd E cmd w).2.calls = w.calls ∧
    (dongmengdb_shell_handle_cmd E cmd w).2.stdout = w.stdout ∧
    (dongmengdb_shell_handle_cmd E cmd w).2.ctx = w.ctx := by
  simp [dongmengdb_shell_handle_cmd, hcmd, hdb, World.eprint]

/-- C6, evaluated on the empty line and on a SQL line in a fresh session. -/
theorem sql_without_database_is_refused_witness :
    ((dongmengdb_shell_handle_cmd sample_engine "" sample_world).1 = .returned 1 ∧
      (1 : Int) ≠ 0 ∧
      (dongmengdb_shell_handle_cmd sample_engine "" sample_world).2.stderr =
        sample_world.stderr ++ "ERROR: No database is open.\n" ∧
      (dongmengdb_shell_handle_cmd sample_engine "" sample_world).2.calls =
        sample_world.calls ∧
      (dongmengdb_shell_handle_cmd sample_engine "" sample_world).2.stdout =
        sample_world.stdout ∧
      (dongmengdb_shell_handle_cmd sample_engine "" sample_world).2.ctx =
        sample_world.ctx) ∧
    (dongmengdb_shell_handle_cmd sample_engine "select 1" sample_world).1 = .returned 1 :=
  ⟨sql_without_database_is_refused sample_engine "" sample_world rfl (by decide),
   (sql_without_database_is_refused sample_engine "select 1" sample_world rfl
     (by decide)).1⟩

/-- C8. When the engine's open of `PATH` returns a status other than `DONGMENGDB_OK`, the
open handler given `.open PATH` returns that status, its only collaborator call is that
`dongmengdb_open` (so `dongmengdb_close` is not called), and the session (database, path,
header flag, display mode) is as before. -/
theorem open_failure_keeps_session (E : Engine) (e : handler_entry) (t0 path : String)
    (w : World) (hrc : E.dongmengdb_open path w.next_db ≠ DONGMENGDB_OK) :
    (dongmengdb_shell_handle_cmd_open E e [t0, path] w).1 =
      .returned (E.dongmengdb_open path w.next_db) ∧
    (dongmengdb_shell_handle_cmd_open E e [t0, path] w).2.calls =
      w.calls ++ [Call.dongmengdb_open path w.next_db (E.dongmengdb_open path w.next_db)] ∧
    (∀ db, Call.dongmengdb_close db ∉
      [Call.dongmengdb_open path w.next_db (E.dongmengdb_open path w.next_db)]) ∧
    (dongmengdb_shell_handle_cmd_open E e [t0, path] w).2.ctx = w.ctx := by
  simp [dongmengdb_shell_handle_cmd_open, hrc, World.call, World.eprint]

/-- C8, evaluated: `.open missing.db` fails with status 3 while database 0 is open. -/
theorem open_failure_keeps_session_witness :
    (dongmengdb_shell_handle_cmd_open sample_engine sample_entry [".open", "missing.db"]
        { sample_world with
          ctx := { sample_world.ctx with db := some 0, dbfile := some "a.db" }
          next_db := 1 }).1 = .returned 3 ∧
    (dongmengdb_shell_handle_cmd_open sample_engine sample_entry [".open", "missing.db"]
        { sample_world with
          ctx := { sample_world.ctx with db := some 0, dbfile := some "a.db" }
          next_db := 1 }).2.ctx =
      { sample_world.ctx with db := some 0, dbfile := some "a.db" } :=
  have h := open_failure_keeps_session sample_engine sample_entry ".open" "missing.db"
    { sample_world with
      ctx := { sample_world.ctx with db := some 0, dbfile := some "a.db" }
      next_db := 1 } (by decide)
  ⟨h.1, h.2.2.2⟩

/-- C9. With an open database the exit handler calls `dongmengdb_close` on it exactly once
and makes no other call, and then terminates the process with status 0; with no open
database it terminates with status 0 without any call. In both cases it does not return a
status to its caller. -/
theorem exit_handler_closes_then_terminates (w : World) :
    (∀ db, w.ctx.db = some db →
      dongmengdb_shell_handle_cmd_exit w =
        (.exited 0, { w with calls := w.calls ++ [Call.dongmengdb_close db] }) ∧
      [Call.dongmengdb_close db].count (Call.dongmengdb_close db) = 1) ∧
    (w.ctx.db = none → dongmengdb_shell_handle_cmd_exit w = (.exited 0, w)) ∧
    (∀ rc, (dongmengdb_shell_handle_cmd_exit w).1 ≠ .returned rc) := by
  refine ⟨?_, ?_, ?_⟩
  · intro db h
    simp [dongmengdb_shell_handle_cmd_exit, h, World.call]
  · intro h
    simp [dongmengdb_shell_handle_cmd_exit, h]
  · intro rc
    cases h : w.ctx.db <;> simp [dongmengdb_shell_handle_cmd_exit, h]

/-- C9, evaluated: `.exit` while database 0 is open. -/
theorem exit_handler_closes_then_terminates_witness :
    dongmengdb_shell_handle_cmd_exit
        { sample_world with ctx := { sample_world.ctx with db := some 0 } } =
      (.exited 0,
        { sample_world with
          ctx := { sample_world.ctx with db := some 0 }
          calls := [Call.dongmengdb_close 0] }) :=
  ((exit_handler_closes_then_terminates
    { sample_world with ctx := { sample_world.ctx with db := some 0 } }).1 0 rfl).1

/-! ### Strings and loops -/

theorem string_join_nil : String.join [] = "" := rfl

theorem string_join_cons (a : String) (l : List String) :
    String.join (a :: l) = a ++ String.join l := by
  apply String.ext
  simp [String.data_join]

theorem intercalate_go_eq (sep : String) (l : List String) :
    ∀ acc : String, String.intercalate.go acc sep l =
      acc ++ String.join (l.map (fun s => sep ++ s)) := by
  induction l with
  | nil => intro acc; simp [String.intercalate.go, string_join_nil]
  | cons a l ih =>
    intro acc
    simp [String.intercalate.go, ih, string_join_cons, String.append_assoc]

theorem intercalate_cons (sep a : String) (l : List String) :
    String.intercalate sep (a :: l) = a ++ String.join (l.map (fun s => sep ++ s)) := by
  simp [String.intercalate, intercalate_go_eq]

/-- A loop that prints a separator before every item but the first prints the items joined
by the separator. -/
theorem join_range_eq_intercalate (sep : String) (f : Nat → String) (n : Nat) :
    String.join ((List.range n).map (fun i => (if i = 0 then "" else sep) ++ f i)) =
      String.intercalate sep ((List.range n).map f) := by
  cases n with
  | zero => simp [string_join_nil, String.intercalate]
  | succ n =>
    have hf : ((fun i => (if i = 0 then "" else sep) ++ f i) ∘ Nat.succ) =
        (((fun s => sep ++ s) ∘ f) ∘ Nat.succ) := by
      funext i
      simp [Function.comp]
    rw [List.range_succ_eq_map, List.map_cons, List.map_cons, intercalate_cons,
      string_join_cons, List.map_map, List.map_map, List.map_map, hf]
    simp

theorem tmod_two_eq_zero_iff_even (x : Int) : Int.tmod x 2 = 0 ↔ Even x := by
  rw [even_iff_two_dvd]
  exact ⟨Int.dvd_of_tmod_eq_zero, Int.tmod_eq_zero_of_dvd⟩

theorem tdiv_neg_of_lt (t : Int) (h : t < 13) (he : Even (t - 13)) :
    Int.tdiv (t - 13) 2 < 0 := by
  obtain ⟨k, hk⟩ := he
  have : t - 13 = 2 * k := by omega
  rw [this, Int.mul_tdiv_cancel_left k (by norm_num : (2:Int) ≠ 0)]
  omega

/-! ### The column loop -/

/-- An iteration of the column loop that breaks ends the columns of the row. -/
theorem render_columns_break (M : Macros) (mode : shell_mode) (row : Row) :
    ∀ (k n i : Nat), k < n →
      (∀ j, j < k → (render_column M mode row (i + j)).2 = true) →
      (render_column M mode row (i + k)).2 = false →
      render_columns M mode row n i =
        String.join ((List.range k).map (fun j => (render_column M mode row (i + j)).1)) ++
          (render_column M mode row (i + k)).1 := by
  intro k
  induction k with
  | zero =>
    intro n i hn _ hk
    obtain ⟨m, rfl⟩ : ∃ m, n = m + 1 := ⟨n - 1, by omega⟩
    simp only [Nat.add_zero] at hk
    simp [render_columns, hk, string_join_nil]
  | succ k ih =>
    intro n i hn hj hk
    obtain ⟨m, rfl⟩ : ∃ m, n = m + 1 := ⟨n - 1, by omega⟩
    have h0 : (render_column M mode row i).2 = true := by
      simpa using hj 0 (Nat.succ_pos k)
    have ih2 := ih m (i + 1) (by omega)
      (fun j hjk => by
        have := hj (j + 1) (by omega)
        rwa [show i + 1 + j = i + (j + 1) by omega])
      (by rwa [show i + 1 + k = i + (k + 1) by omega])
    have hf : ((fun j => (render_column M mode row (i + j)).1) ∘ Nat.succ) =
        (fun j => (render_column M mode row (i + 1 + j)).1) := by
      funext j
      simp [Function.comp, Nat.add_assoc, Nat.add_comm 1 j]
    simp only [render_columns, h0, if_true, ih2]
    rw [List.range_succ_eq_map, List.map_cons, List.map_map, string_join_cons,
      String.append_assoc, hf, show i + 1 + k = i + (k + 1) by omega]
    simp

/-- When no iteration breaks, the columns of the row are the iterations in order. -/
theorem render_columns_all (M : Macros) (mode : shell_mode) (row : Row) :
    ∀ (n i : Nat),
      (∀ j, j < n → (render_column M mode row (i + j)).2 = true) →
      render_columns M mode row n i =
        String.join ((List.range n).map (fun j => (render_column M mode row (i + j)).1)) := by
  intro n
  induction n with
  | zero => intro i _; simp [render_columns, string_join_nil]
  | succ n ih =>
    intro i hj
    have h0 : (render_column M mode row i).2 = true := by
      simpa using hj 0 (Nat.succ_pos n)
    have ih2 := ih (i + 1)
      (fun j hjk => by
        have := hj (j + 1) (by omega)
        rwa [show i + 1 + j = i + (j + 1) by omega])
    have hf : ((fun j => (render_column M mode row (i + j)).1) ∘ Nat.succ) =
        (fun j => (render_column M mode row (i + 1 + j)).1) := by
      funext j
      simp [Function.comp, Nat.add_assoc, Nat.add_comm 1 j]
    simp only [render_columns, h0, if_true, ih2]
    rw [List.range_succ_eq_map, List.map_cons, List.map_map, string_join_cons, hf]
    simp

/-- The column loop up to an iteration that it reaches: the iterations before it, then the
loop entered at that iteration. -/
theorem render_columns_reach (M : Macros) (mode : shell_mode) (row : Row) :
    ∀ (k n i : Nat), k ≤ n →
      (∀ j, j < k → (render_column M mode row (i + j)).2 = true) →
      render_columns M mode row n i =
        String.join ((List.range k).map (fun j => (render_column M mode row (i + j)).1)) ++
          render_columns M mode row (n - k) (i + k) := by
  intro k
  induction k with
  | zero => intro n i _ _; simp [string_join_nil]
  | succ k ih =>
    intro n i hn hj
    obtain ⟨m, rfl⟩ : ∃ m, n = m + 1 := ⟨n - 1, by omega⟩
    have h0 : (render_column M mode row i).2 = true := by
      simpa using hj 0 (Nat.succ_pos k)
    have ih2 := ih m (i + 1) (by omega)
      (fun j hjk => by
        have := hj (j + 1) (by omega)
        rwa [show i + 1 + j = i + (j + 1) by omega])
    have hf : ((fun j => (render_column M mode row (i + j)).1) ∘ Nat.succ) =
        (fun j => (render_column M mode row (i + 1 + j)).1) := by
      funext j
      simp [Function.comp, Nat.add_assoc, Nat.add_comm 1 j]
    simp only [render_columns, h0, if_true, ih2]
    rw [List.range_succ_eq_map, List.map_cons, List.map_map, string_join_cons,
      String.append_assoc, hf, show i + 1 + k = i + (k + 1) by omega,
      show m + 1 - (k + 1) = m - k by omega]
    simp

/-- The row that breaks at column `i`: the columns before `i`, the text of column `i`, and
the newline that ends the row. -/
theorem render_row_break (M : Macros) (mode : shell_mode) (row : Row) (numcol : Int)
    (i : Nat) (hi : (i : Int) < numcol)
    (hbefore : ∀ j, j < i → (render_column M mode row j).2 = true)
    (hbreak : (render_column M mode row i).2 = false) :
    render_row M mode numcol row =
      String.join ((List.range i).map (fun j => (render_column M mode row j).1)) ++
        (render_column M mode row i).1 ++ "\n" := by
  have h := render_columns_break M mode row i numcol.toNat 0 (by omega)
    (fun j hj => by simpa using hbefore j hj) (by simpa using hbreak)
  simp only [Nat.zero_add] at h
  rw [render_row, h]

/-- The type switch at a tag that is none of the five named ones. -/
theorem render_value_text_tag (M : Macros) (mode : shell_mode) (row : Row) (i : Nat)
    (hnv : row.column_type i ≠ M.SQL_NOTVALID)
    (h1 : row.column_type i ≠ M.SQL_INTEGER_1BYTE)
    (h2 : row.column_type i ≠ M.SQL_INTEGER_2BYTE)
    (h4 : row.column_type i ≠ M.SQL_INTEGER_4BYTE)
    (hnull : row.column_type i ≠ M.SQL_NULL) :
    render_value M mode row i =
      if Int.tmod (row.column_type i - 13) 2 ≠ 0 then (invalid_type_message i, false)
      else if ((row.column_text i).length : Int) ≠ Int.tdiv (row.column_type i - 13) 2 then
        (length_message (row.column_text i).length i (row.column_type i), false)
      else
        ((match mode with
          | .MODE_LIST => row.column_text i
          | .MODE_COLUMN => printf_s10 (row.column_text i)), true) := by
  unfold render_value
  simp only [hnv, h1, h2, h4, hnull, or_self, if_false]
  cases mode <;> rfl

theorem messages_differ (sep : String) (len i coltype : Int) :
    sep ++ length_message len i coltype ≠ sep ++ invalid_type_message i := by
  intro h
  have h2 := congrArg String.data h
  simp [length_message, invalid_type_message, String.data_append] at h2

/-- Whatever the values of the five named tags, some tag below 13 with an even difference to
13 is none of them. -/
theorem some_negative_even_text_tag (M : Macros) :
    ∃ t : Int, t ≠ M.SQL_NOTVALID ∧ t ≠ M.SQL_INTEGER_1BYTE ∧ t ≠ M.SQL_INTEGER_2BYTE ∧
      t ≠ M.SQL_INTEGER_4BYTE ∧ t ≠ M.SQL_NULL ∧ t < 13 ∧ Even (t - 13) := by
  have key : ∃ k : Int, 0 ≤ k ∧ k ≤ 5 ∧ 11 - 2 * k ≠ M.SQL_NOTVALID ∧
      11 - 2 * k ≠ M.SQL_INTEGER_1BYTE ∧ 11 - 2 * k ≠ M.SQL_INTEGER_2BYTE ∧
      11 - 2 * k ≠ M.SQL_INTEGER_4BYTE ∧ 11 - 2 * k ≠ M.SQL_NULL := by
    by_contra hne
    push_neg at hne
    have e0 := hne 0 (by norm_num) (by norm_num)
    have e1 := hne 1 (by norm_num) (by norm_num)
    have e2 := hne 2 (by norm_num) (by norm_num)
    have e3 := hne 3 (by norm_num) (by norm_num)
    have e4 := hne 4 (by norm_num) (by norm_num)
    have e5 := hne 5 (by norm_num) (by norm_num)
    omega
  obtain ⟨k, _, _, h1, h2, h3, h4, h5⟩ := key
  exact ⟨11 - 2 * k, h1, h2, h3, h4, h5, by omega, ⟨-1 - k, by ring⟩⟩

/-! ### C3 -/

theorem printf_s10_data (s : String) :
    (printf_s10 s).data = s.data.take 10 ++ List.replicate (10 - s.length) ' ' := by
  simp only [printf_s10, String.length, List.length_take]
  congr 2
  omega

theorem printf_s10_length (s : String) : (printf_s10 s).length = 10 := by
  simp only [printf_s10, String.length, List.length_append, List.length_replicate,
    List.length_take]
  omega

theorem join_sep_length (sep : String) (l : List String) (hl : ∀ s ∈ l, s.length = 10) :
    (String.join (l.map (fun s => sep ++ s))).length = (sep.length + 10) * l.length := by
  induction l with
  | nil => simp [string_join_nil]
  | cons a l ih =>
    have ha := hl a (List.mem_cons_self _ _)
    have ih2 := ih (fun s hs => hl s (List.mem_cons_of_mem _ hs))
    simp only [List.map_cons, string_join_cons, String.length_append, ih2, ha,
      List.length_cons]
    ring

theorem intercalate_blank_length (l : List String) (hl : ∀ s ∈ l, s.length = 10)
    (hne : 1 ≤ l.length) : (String.intercalate " " l).length = 11 * l.length - 1 := by
  cases l with
  | nil => simp at hne
  | cons a l =>
    have ha := hl a (List.mem_cons_self _ _)
    rw [intercalate_cons, String.length_append, ha,
      join_sep_length " " l (fun s hs => hl s (List.mem_cons_of_mem _ hs))]
    have : (" " : String).length = 1 := rfl
    simp only [this, List.length_cons]
    omega

theorem range_map_eq_of_getD (names : List String) (f : Nat → String)
    (hf : ∀ i, i < names.length → f i = names.getD i "") :
    (List.range names.length).map f = names := by
  apply List.ext_getElem
  · simp
  · intro i h1 h2
    simp only [List.getElem_map, List.getElem_range]
    rw [hf i h2]
    simp [List.getD_eq_getElem?_getD, h2]

/-- What `dongmengdb_shell_handle_sql` prints after a successful prepare: the header if
headers are on, the rows, the message for the status that ended the rows, and the message
for a finalize that reports misuse. -/
theorem handle_sql_stdout (E : Engine) (sql : String) (w : World)
    (hprep : (E.dongmengdb_prepare w.ctx.db sql).1 = DONGMENGDB_OK) :
    (dongmengdb_shell_handle_sql E sql w).2.stdout =
      w.stdout ++
        (if w.ctx.header then
          print_header w.ctx.mode (E.dongmengdb_prepare w.ctx.db sql).2
            (E.dongmengdb_prepare w.ctx.db sql).2.column_count
         else "") ++
        render_rows E.toMacros w.ctx.mode (E.dongmengdb_prepare w.ctx.db sql).2.column_count
          (E.dongmengdb_prepare w.ctx.db sql).2.rows ++
        step_message E.toMacros (E.dongmengdb_prepare w.ctx.db sql).2.done ++
        (if (E.dongmengdb_prepare w.ctx.db sql).2.finalize = E.DONGMENGDB_EMISUSE then
          "API used incorrectly.\n" else "") := by
  unfold dongmengdb_shell_handle_sql
  simp only [hprep, if_true]
  cases hh : w.ctx.header <;>
    by_cases hf : (E.dongmengdb_prepare w.ctx.db sql).2.finalize = E.DONGMENGDB_EMISUSE <;>
    simp [World.print, World.call, hh, hf, String.append_assoc]

/-- The header of a statement whose columns are `names`, in list mode. -/
theorem print_header_list (stmt : dongmengdb_stmt) (names : List String)
    (hcount : stmt.column_count = names.length)
    (hnames : ∀ i, i < names.length → stmt.column_name i = names.getD i "") :
    print_header .MODE_LIST stmt stmt.column_count = String.intercalate "|" names ++ "\n" := by
  have hn : stmt.column_count.toNat = names.length := by omega
  have hjoin := join_range_eq_intercalate "|" stmt.column_name names.length
  rw [range_map_eq_of_getD names stmt.column_name hnames] at hjoin
  have hbody : List.map (header_name .MODE_LIST stmt) (List.range names.length) =
      List.map (fun i => (if i = 0 then "" else "|") ++ stmt.column_name i)
        (List.range names.length) :=
    List.map_congr_left (fun i _ => by simp [header_name, column_separator, COL_SEPARATOR])
  simp only [print_header, hn, hbody, hjoin, String.append_assoc]
  rfl

/-- The header of a statement whose columns are `names`, in column mode. -/
theorem print_header_column (stmt : dongmengdb_stmt) (names : List String)
    (hcount : stmt.column_count = names.length)
    (hnames : ∀ i, i < names.length → stmt.column_name i = names.getD i "") :
    print_header .MODE_COLUMN stmt stmt.column_count =
      String.intercalate " " (names.map printf_s10) ++ "\n" ++
        (String.intercalate " " (List.replicate names.length "----------") ++ "\n") := by
  have hn : stmt.column_count.toNat = names.length := by omega
  have hjoin := join_range_eq_intercalate " " (fun i => printf_s10 (stmt.column_name i))
    names.length
  have hmap : List.map (fun i => printf_s10 (stmt.column_name i)) (List.range names.length) =
      names.map printf_s10 := by
    have h := congrArg (List.map printf_s10)
      (range_map_eq_of_getD names stmt.column_name hnames)
    rw [List.map_map] at h
    exact h
  rw [hmap] at hjoin
  have hbody : List.map (header_name .MODE_COLUMN stmt) (List.range names.length) =
      List.map (fun i => (if i = 0 then "" else " ") ++ printf_s10 (stmt.column_name i))
        (List.range names.length) :=
    List.map_congr_left (fun i _ => by simp [header_name, column_separator])
  have hrule := join_range_eq_intercalate " " (fun _ => "----------") names.length
  have hconst : List.map (fun _ : Nat => "----------") (List.range names.length) =
      List.replicate names.length "----------" := by
    simp [List.map_const_fun]
  rw [hconst] at hrule
  have hrulebody : List.map header_rule (List.range names.length) =
      List.map (fun i => (if i = 0 then "" else " ") ++ "----------")
        (List.range names.length) :=
    List.map_congr_left (fun i _ => by simp [header_rule])
  simp only [print_header, hn, hbody, hjoin, hrulebody, hrule]

/-- C4. After a successful prepare with headers on, for a statement whose columns are
`names`: in list mode `dongmengdb_shell_handle_sql` prints the names joined by `|` and a
newline; in column mode it prints the names, each cut or padded with blanks on the right to
exactly 10 characters, joined by one blank, a newline, and then one group of 10 dashes for
each column, joined by one blank, and a newline. With at least one column both column-mode
lines have `11 * n - 1` characters. For `id`, `name` the lines are `id|name`, and
`id         name      ` over `---------- ----------`. The rows and status messages follow
the header. -/
theorem header_output (E : Engine) (sql : String) (w : World) (names : List String)
    (hprep : (E.dongmengdb_prepare w.ctx.db sql).1 = DONGMENGDB_OK)
    (hheader : w.ctx.header = true)
    (hcount : (E.dongmengdb_prepare w.ctx.db sql).2.column_count = names.length)
    (hnames : ∀ i, i < names.length →
      (E.dongmengdb_prepare w.ctx.db sql).2.column_name i = names.getD i "") :
    (w.ctx.mode = .MODE_LIST →
      (dongmengdb_shell_handle_sql E sql w).2.stdout =
        w.stdout ++ (String.intercalate "|" names ++ "\n") ++
          render_rows E.toMacros .MODE_LIST
            (E.dongmengdb_prepare w.ctx.db sql).2.column_count
            (E.dongmengdb_prepare w.ctx.db sql).2.rows ++
          step_message E.toMacros (E.dongmengdb_prepare w.ctx.db sql).2.done ++
          (if (E.dongmengdb_prepare w.ctx.db sql).2.finalize = E.DONGMENGDB_EMISUSE then
            "API used incorrectly.\n" else "")) ∧
    (w.ctx.mode = .MODE_COLUMN →
      (dongmengdb_shell_handle_sql E sql w).2.stdout =
        w.stdout ++
          (String.intercalate " " (names.map printf_s10) ++ "\n" ++
            (String.intercalate " " (List.replicate names.length "----------") ++ "\n")) ++
          render_rows E.toMacros .MODE_COLUMN
            (E.dongmengdb_prepare w.ctx.db sql).2.column_count
            (E.dongmengdb_prepare w.ctx.db sql).2.rows ++
          step_message E.toMacros (E.dongmengdb_prepare w.ctx.db sql).2.done ++
          (if (E.dongmengdb_prepare w.ctx.db sql).2.finalize = E.DONGMENGDB_EMISUSE then
            "API used incorrectly.\n" else "")) ∧
    (∀ nm : String,
      (printf_s10 nm).data = nm.data.take 10 ++ List.replicate (10 - nm.length) ' ' ∧
      (printf_s10 nm).length = 10) ∧
    (1 ≤ names.length →
      (String.intercalate " " (names.map printf_s10)).length = 11 * names.length - 1 ∧
      (String.intercalate " " (List.replicate names.length "----------")).length =
        11 * names.length - 1) ∧
    (String.intercalate "|" ["id", "name"] = "id|name" ∧
      String.intercalate " " (["id", "name"].map printf_s10) = "id         name      " ∧
      String.intercalate " " (List.replicate 2 "----------") = "---------- ----------") := by
  refine ⟨?_, ?_, ?_, ?_, ?_⟩
  · intro hmode
    rw [handle_sql_stdout E sql w hprep, hheader, hmode, if_pos rfl,
      print_header_list _ names hcount hnames]
  · intro hmode
    rw [handle_sql_stdout E sql w hprep, hheader, hmode, if_pos rfl,
      print_header_column _ names hcount hnames]
  · exact fun nm => ⟨printf_s10_data nm, printf_s10_length nm⟩
  · intro hn
    constructor
    · have h := intercalate_blank_length (names.map printf_s10)
        (fun s hs => by
          obtain ⟨nm, _, rfl⟩ := List.mem_map.1 hs
          exact printf_s10_length nm)
        (by simpa using hn)
      simpa using h
    · have h := intercalate_blank_length (List.replicate names.length "----------")
        (fun s hs => by
          rw [List.eq_of_mem_replicate hs]
          rfl)
        (by simpa using hn)
      simpa using h
  · decide

/-- C4, evaluated: the statement with the columns `id` and `name` and the row `7`, `ann`,
with headers on, in list mode and in column mode. -/
theorem header_output_witness :
    (dongmengdb_shell_handle_sql sample_engine "select * from t"
        { sample_world with
          ctx := { db := some 0, dbfile := some "a.db", header := true,
                   mode := .MODE_LIST } }).2.stdout = "id|name\n7|ann\n" ∧
    (dongmengdb_shell_handle_sql sample_engine "select * from t"
        { sample_world with
          ctx := { db := some 0, dbfile := some "a.db", header := true,
                   mode := .MODE_COLUMN } }).2.stdout =
      "id         name      \n---------- ----------\n         7 ann       \n" :=
  ⟨((header_output sample_engine "select * from t"
      { sample_world with
        ctx := { db := some 0, dbfile := some "a.db", header := true, mode := .MODE_LIST } }
      ["id", "name"] rfl rfl rfl (by decide)).1 rfl).trans (by decide),
   ((header_output sample_engine "select * from t"
      { sample_world with
        ctx := { db := some 0, dbfile := some "a.db", header := true, mode := .MODE_COLUMN } }
      ["id", "name"] rfl rfl rfl (by decide)).2.1 rfl).trans (by decide)⟩

/-! ### C5 -/

theorem digitChar_ne_bar (d : Nat) : Nat.digitChar d ≠ '|' := by
  by_cases h : d < 16
  · interval_cases d <;> decide
  · have e : Nat.digitChar d = '*' := by
      unfold Nat.digitChar
      simp only [show ¬ d = 0 by omega, show ¬ d = 1 by omega, show ¬ d = 2 by omega,
        show ¬ d = 3 by omega, show ¬ d = 4 by omega, show ¬ d = 5 by omega,
        show ¬ d = 6 by omega, show ¬ d = 7 by omega, show ¬ d = 8 by omega,
        show ¬ d = 9 by omega, show ¬ d = 10 by omega, show ¬ d = 11 by omega,
        show ¬ d = 12 by omega, show ¬ d = 13 by omega, show ¬ d = 14 by omega,
        show ¬ d = 15 by omega, if_false]
    rw [e]
    decide

theorem toDigitsCore_no_bar (b : Nat) : ∀ (fuel n : Nat) (ds : List Char),
    '|' ∉ ds → '|' ∉ Nat.toDigitsCore b fuel n ds := by
  intro fuel
  induction fuel with
  | zero => intro n ds h; simpa [Nat.toDigitsCore] using h
  | succ fuel ih =>
    intro n ds h
    simp only [Nat.toDigitsCore]
    split
    · simp only [List.mem_cons, not_or]
      exact ⟨fun hc => digitChar_ne_bar _ hc.symm, h⟩
    · apply ih
      simp only [List.mem_cons, not_or]
      exact ⟨fun hc => digitChar_ne_bar _ hc.symm, h⟩

theorem printf_i_no_bar (n : Int) : '|' ∉ (printf_i n).data := by
  have hrepr : ∀ m : Nat, '|' ∉ (Nat.repr m).data := by
    intro m
    simp only [Nat.repr, Nat.toDigits, List.asString]
    exact toDigitsCore_no_bar 10 _ _ [] (by simp)
  unfold printf_i
  split
  · simp only [String.data_append, List.mem_append, not_or]
    exact ⟨by decide, hrepr _⟩
  · exact hrepr _

/-- A list-mode value that does not break the loop has no `|` unless the text has one. -/
theorem render_value_list_no_bar (M : Macros) (row : Row) (j : Nat)
    (hgo : (render_value M .MODE_LIST row j).2 = true)
    (htext : '|' ∉ (row.column_text j).data) :
    '|' ∉ (render_value M .MODE_LIST row j).1.data := by
  unfold render_value at hgo ⊢
  simp only at hgo ⊢
  split_ifs at hgo ⊢ with h1 h2 h3 h4 h5
  · exact printf_i_no_bar _
  · simp
  · exact htext

theorem render_columns_list_count (M : Macros) (row : Row) :
    ∀ (n i : Nat),
      (∀ j, j < n → (render_column M .MODE_LIST row (i + j)).2 = true) →
      (∀ j, j < n → '|' ∉ (row.column_text (i + j)).data) →
      (render_columns M .MODE_LIST row n i).data.count '|' = if i = 0 then n - 1 else n := by
  intro n
  induction n with
  | zero => intro i _ _; simp [render_columns]
  | succ n ih =>
    intro i hgo htext
    have h0 : (render_column M .MODE_LIST row i).2 = true := by
      simpa using hgo 0 (Nat.succ_pos n)
    have ih2 := ih (i + 1)
      (fun j hj => by
        have := hgo (j + 1) (by omega)
        rwa [show i + 1 + j = i + (j + 1) by omega])
      (fun j hj => by
        have := htext (j + 1) (by omega)
        rwa [show i + 1 + j = i + (j + 1) by omega])
    have hval := render_value_list_no_bar M row i h0 (by simpa using htext 0 (Nat.succ_pos n))
    simp only [render_columns, h0, if_true, String.data_append, List.count_append, ih2]
    simp only [render_column, String.data_append, List.count_append,
      List.count_eq_zero_of_not_mem hval, column_separator, COL_SEPARATOR]
    by_cases hi : i = 0
    · subst hi
      simp
    · simp [hi]
      omega


/-- A list-mode row in which no column breaks the loop: the values joined by `|`, and the
newline. -/
theorem render_row_list_all (M : Macros) (row : Row) (k : Nat)
    (hgo : ∀ j, j < k → (render_column M .MODE_LIST row j).2 = true) :
    render_row M .MODE_LIST k row =
      String.intercalate "|"
        ((List.range k).map (fun j => (render_value M .MODE_LIST row j).1)) ++ "\n" := by
  have h := render_columns_all M .MODE_LIST row k 0 (fun j hj => by simpa using hgo j hj)
  have hbody : List.map (fun j => (render_column M .MODE_LIST row (0 + j)).1) (List.range k) =
      List.map (fun j => (if j = 0 then "" else "|") ++ (render_value M .MODE_LIST row j).1)
        (List.range k) :=
    List.map_congr_left
      (fun j _ => by simp [render_column, column_separator, COL_SEPARATOR])
  rw [hbody, join_range_eq_intercalate] at h
  rw [render_row, Int.toNat_ofNat, h]

/-- The open handler when the engine's open succeeds. -/
theorem open_success (E : Engine) (e : handler_entry) (t0 path : String) (w : World)
    (hrc : E.dongmengdb_open path w.next_db = DONGMENGDB_OK) :
    dongmengdb_shell_handle_cmd_open E e [t0, path] w =
      (.returned DONGMENGDB_OK,
        { w with
          ctx := { w.ctx with db := some w.next_db, dbfile := some path }
          calls := w.calls ++ [Call.dongmengdb_open path w.next_db DONGMENGDB_OK] ++
            (match w.ctx.db with
             | some db => [Call.dongmengdb_close db]
             | none => [])
          next_db := w.next_db + 1 }) := by
  cases hdb : w.ctx.db <;>
    simp [dongmengdb_shell_handle_cmd_open, hrc, World.call, hdb]

theorem open_handles_append (l m : List Call) :
    open_handles (l ++ m) = m.foldl track_call (open_handles l) := by
  simp [open_handles, List.foldl_append]

/-- C7. When the engine opens both `A` and `B`, `.open A` followed by `.open B` both return
`DONGMENGDB_OK`; afterwards the session holds the database allocated for `B` with the path
`B` (header flag and display mode untouched); the second call makes exactly two collaborator
calls, the open of `B` and then the close of the database opened for `A`; over both calls the
database opened for `A` is closed exactly once (the session's earlier database, if any, is
closed by the first call); and if the engine's open databases were those of the session before,
the database for `B` is the only one open afterwards. The session's database, if any, is an
earlier allocation (`hfresh`). -/
theorem open_twice (E : Engine) (eA eB : handler_entry) (tA tB A B : String) (w : World)
    (hA : E.dongmengdb_open A w.next_db = DONGMENGDB_OK)
    (hB : E.dongmengdb_open B (w.next_db + 1) = DONGMENGDB_OK)
    (hfresh : ∀ db, w.ctx.db = some db → db < w.next_db) :
    (dongmengdb_shell_handle_cmd_open E eA [tA, A] w).1 = .returned DONGMENGDB_OK ∧
    (dongmengdb_shell_handle_cmd_open E eA [tA, A] w).2.ctx.db = some w.next_db ∧
    (dongmengdb_shell_handle_cmd_open E eB [tB, B]
      (dongmengdb_shell_handle_cmd_open E eA [tA, A] w).2).1 = .returned DONGMENGDB_OK ∧
    (dongmengdb_shell_handle_cmd_open E eB [tB, B]
      (dongmengdb_shell_handle_cmd_open E eA [tA, A] w).2).2.ctx =
      { w.ctx with db := some (w.next_db + 1), dbfile := some B } ∧
    (dongmengdb_shell_handle_cmd_open E eB [tB, B]
      (dongmengdb_shell_handle_cmd_open E eA [tA, A] w).2).2.calls =
      (dongmengdb_shell_handle_cmd_open E eA [tA, A] w).2.calls ++
        [Call.dongmengdb_open B (w.next_db + 1) DONGMENGDB_OK,
         Call.dongmengdb_close w.next_db] ∧
    (dongmengdb_shell_handle_cmd_open E eB [tB, B]
      (dongmengdb_shell_handle_cmd_open E eA [tA, A] w).2).2.calls =
      w.calls ++
        ([Call.dongmengdb_open A w.next_db DONGMENGDB_OK] ++
          (match w.ctx.db with
           | some db => [Call.dongmengdb_close db]
           | none => []) ++
          [Call.dongmengdb_open B (w.next_db + 1) DONGMENGDB_OK,
           Call.dongmengdb_close w.next_db]) ∧
    ([Call.dongmengdb_open A w.next_db DONGMENGDB_OK] ++
          (match w.ctx.db with
           | some db => [Call.dongmengdb_close db]
           | none => []) ++
          [Call.dongmengdb_open B (w.next_db + 1) DONGMENGDB_OK,
           Call.dongmengdb_close w.next_db]).count (Call.dongmengdb_close w.next_db) = 1 ∧
    (open_handles w.calls = w.ctx.db.toList →
      open_handles (dongmengdb_shell_handle_cmd_open E eB [tB, B]
        (dongmengdb_shell_handle_cmd_open E eA [tA, A] w).2).2.calls = [w.next_db + 1]) := by
  have h1 := open_success E eA tA A w hA
  have h2 := open_success E eB tB B (dongmengdb_shell_handle_cmd_open E eA [tA, A] w).2
    (by rw [h1]; exact hB)
  rw [h2, h1]
  refine ⟨rfl, rfl, rfl, rfl, ?_, ?_, ?_, ?_⟩
  · simp
  · simp
  · cases hdb : w.ctx.db with
    | none => simp [List.count_cons]
    | some db =>
      have := hfresh db hdb
      have hne : db ≠ w.next_db := by omega
      simp [List.count_cons, hne]
  · intro hlive
    cases hdb : w.ctx.db with
    | none =>
      rw [hdb] at hlive
      simp [open_handles_append, hlive, track_call]
    | some db =>
      rw [hdb] at hlive
      have := hfresh db hdb
      have hne : db ≠ w.next_db := by omega
      simp [open_handles_append, hlive, hne, List.filter_cons, track_call]

/-- C7, evaluated: `.open a.db` then `.open b.db` in a session that already holds database
0. -/
theorem open_twice_witness :
    (dongmengdb_shell_handle_cmd_open sample_engine sample_entry [".open", "b.db"]
      (dongmengdb_shell_handle_cmd_open sample_engine sample_entry [".open", "a.db"]
        { sample_world with
          ctx := { sample_world.ctx with db := some 0, dbfile := some "old.db" }
          calls := [Call.dongmengdb_open "old.db" 0 0]
          next_db := 1 }).2).2.ctx =
      { sample_world.ctx with db := some 2, dbfile := some "b.db" } ∧
    open_handles
      (dongmengdb_shell_handle_cmd_open sample_engine sample_entry [".open", "b.db"]
        (dongmengdb_shell_handle_cmd_open sample_engine sample_entry [".open", "a.db"]
          { sample_world with
            ctx := { sample_world.ctx with db := some 0, dbfile := some "old.db" }
            calls := [Call.dongmengdb_open "old.db" 0 0]
            next_db := 1 }).2).2.calls = [2] :=
  have h := open_twice sample_engine sample_entry sample_entry ".open" ".open" "a.db" "b.db"
    { sample_world with
      ctx := { sample_world.ctx with db := some 0, dbfile := some "old.db" }
      calls := [Call.dongmengdb_open "old.db" 0 0]
      next_db := 1 } rfl rfl (by decide)
  ⟨h.2.2.2.1, h.2.2.2.2.2.2.2 (by decide)⟩

/-! ### C10 -/

/-- C10, as stated, fails for the help handler: the line `.help extra` has two tokens, one
more than the arity 1, and the handler reached through the dispatcher returns 0; what it
prints on standard error starts with the help text of `.open`, not with an error line. -/
theorem help_ignores_token_count :
    sample_engine.dongmengdb_tokenize ".help extra" = [".help", "extra"] ∧
    (dongmengdb_shell_handle_cmd sample_engine ".help extra" sample_world).1 = .returned 0 ∧
    (dongmengdb_shell_handle_cmd sample_engine ".help extra" sample_world).2.stderr.data.take
      14 = ".open FILENAME".data := by
  refine ⟨by decide, by decide, by rfl⟩

/-- The loop of the help handler appends the help text of every entry, each followed by a
newline, to standard error and changes nothing else. -/
theorem help_fold_eq : ∀ (l : List handler_entry) (v : World),
    l.foldl (fun w h => w.eprint (h.help ++ "\n")) v =
      { v with stderr := v.stderr ++ String.join (l.map (fun h => h.help ++ "\n")) } := by
  intro l
  induction l with
  | nil =>
    intro v
    simp [string_join_nil]
  | cons a l ih =>
    intro v
    rw [List.foldl_cons, ih, List.map_cons, string_join_cons]
    simp [World.eprint, String.append_assoc]

/-- C10, amended. Each of the six handlers open, parse, opt, headers, mode and explain
checks the token count against 2: for every session, every descriptor of one of them and
every token list whose length is not 2, it prints `ERROR: Invalid arguments` and the
descriptor's help text on standard error, returns the non-zero status 1, calls no
collaborator, prints nothing on standard output and leaves the session unchanged. The help
and exit handlers do not look at the tokens: with any token list the help handler prints the
help text of every entry of the registry, in registry order and each followed by a newline,
on standard error, returns `DONGMENGDB_OK` and changes nothing else; the exit handler closes
the session's database, if there is one, and terminates the process with status 0. -/
theorem arity_validation (E : Engine) (w : World) :
    (∀ (e : handler_entry) (tokens : List String),
      (e.func = .cmd_open ∨ e.func = .cmd_parse ∨ e.func = .cmd_opt ∨
        e.func = .cmd_headers ∨ e.func = .cmd_mode ∨ e.func = .cmd_explain) →
      tokens.length ≠ 2 →
      (e.call E tokens w).1 = .returned 1 ∧
      (1 : Int) ≠ 0 ∧
      (e.call E tokens w).2.stderr =
        w.stderr ++ "ERROR: Invalid arguments\n" ++ (e.help ++ "\n") ∧
      (e.call E tokens w).2.stdout = w.stdout ∧
      (e.call E tokens w).2.calls = w.calls ∧
      (e.call E tokens w).2.ctx = w.ctx) ∧
    (∀ (e : handler_entry) (tokens tokens2 : List String),
      (e.func = .cmd_help ∨ e.func = .cmd_exit) →
      e.call E tokens w = e.call E tokens2 w) ∧
    (∀ (e : handler_entry) (tokens : List String), e.func = .cmd_help →
      (e.call E tokens w).1 = .returned DONGMENGDB_OK ∧ (e.call E tokens w).2.ctx = w.ctx) ∧
    (∀ (e : handler_entry) (tokens : List String), e.func = .cmd_exit →
      (e.call E tokens w).1 = .exited 0) ∧
    (∀ (e : handler_entry) (tokens : List String), e.func = .cmd_help →
      e.call E tokens w =
        (.returned DONGMENGDB_OK,
          { w with stderr := w.stderr ++
              String.join (handlers.map (fun h => h.help ++ "\n")) })) ∧
    (∀ (e : handler_entry) (tokens : List String), e.func = .cmd_exit →
      e.call E tokens w =
        (.exited 0,
          { w with calls := w.calls ++ w.ctx.db.toList.map Call.dongmengdb_close })) := by
  have hfold : ∀ (l : List handler_entry) (v : World),
      (l.foldl (fun w h => w.eprint (h.help ++ "\n")) v).ctx = v.ctx := by
    intro l
    induction l with
    | nil => intro v; rfl
    | cons a l ih => intro v; rw [List.foldl_cons, ih]; rfl
  refine ⟨?_, ?_, ?_, ?_, ?_, ?_⟩
  · intro e tokens hfunc hlen
    rcases hfunc with h | h | h | h | h | h <;>
      simp [handler_entry.call, h, dongmengdb_shell_handle_cmd_open,
        dongmengdb_shell_handle_cmd_parse, dongmengdb_shell_handle_cmd_opt,
        dongmengdb_shell_handle_cmd_headers, dongmengdb_shell_handle_cmd_mode,
        dongmengdb_shell_handle_cmd_explain, hlen, usage_error, World.eprint,
        String.append_assoc]
  · intro e tokens tokens2 hfunc
    rcases hfunc with h | h <;> simp [handler_entry.call, h]
  · intro e tokens h
    simp [handler_entry.call, h, dongmengdb_shell_handle_cmd_help, hfold]
  · intro e tokens h
    cases hdb : w.ctx.db <;>
      simp [handler_entry.call, h, dongmengdb_shell_handle_cmd_exit, hdb]
  · intro e tokens h
    simp only [handler_entry.call, h, dongmengdb_shell_handle_cmd_help, help_fold_eq]
  · intro e tokens h
    cases hdb : w.ctx.db <;>
      simp [handler_entry.call, h, dongmengdb_shell_handle_cmd_exit, hdb, World.call]

/-- C10, amended, evaluated: `.open` alone, and `.open` with two arguments. -/
theorem arity_validation_witness :
    (sample_entry.call sample_engine [".open"] sample_world).1 = .returned 1 ∧
    (sample_entry.call sample_engine [".open", "a.db", "b.db"] sample_world).2.ctx =
      sample_world.ctx :=
  ⟨((arity_validation sample_engine sample_world).1 sample_entry [".open"]
      (Or.inl rfl) (by decide)).1,
   ((arity_validation sample_engine sample_world).1 sample_entry [".open", "a.db", "b.db"]
      (Or.inl rfl) (by decide)).2.2.2.2.2⟩

/-! ### C11 -/

theorem handlers_name_len : ∀ e ∈ handlers, e.name_len = e.name.length := by
  intro e he
  simp only [handlers, List.mem_cons, List.mem_singleton, List.not_mem_nil, or_false] at he
  rcases he with h | h | h | h | h | h | h | h | h <;> subst h <;> rfl

/-- The test of line 51 for an entry made by `HANDLER_ENTRY`: the name is a prefix of the
token (without its first character). -/
theorem strncmp_eq_iff_name_leads (t : List Char) (e : handler_entry)
    (h : e.name_len = e.name.length) :
    strncmp_eq t e.name.data e.name_len = true ↔ e.name.data <+: t := by
  have hlen : e.name.length = e.name.data.length := rfl
  rw [strncmp_eq, h, hlen, List.take_length, beq_iff_eq, List.prefix_iff_eq_take]
  exact eq_comm

theorem find_handler_eq_none (t : List Char) :
    ∀ l : List handler_entry, (∀ e ∈ l, e.name_len = e.name.length) →
      (find_handler t l = none ↔ ∀ e ∈ l, ¬ e.name.data <+: t) := by
  intro l
  induction l with
  | nil => intro _; simp [find_handler]
  | cons a l ih =>
    intro hl
    have ha := strncmp_eq_iff_name_leads t a (hl a (List.mem_cons_self _ _))
    have ih2 := ih (fun e he => hl e (List.mem_cons_of_mem _ he))
    by_cases hp : a.name.data <+: t
    · simp [find_handler, ha.2 hp, hp]
    · have hf : strncmp_eq t a.name.data a.name_len = false := by
        cases hs : strncmp_eq t a.name.data a.name_len
        · rfl
        · exact absurd (ha.1 hs) hp
      simp [find_handler, hf, hp, ih2]

/-- C11. For a line that starts with `.` and whose first token, without its first character,
has no registry name as a prefix, `dongmengdb_shell_handle_cmd` returns the non-zero status 1
and prints `ERROR: Unrecognized command:` with the token on standard error; nothing else
changes, so no handler has run: the session, standard output and the collaborator calls are
as before. -/
theorem unrecognized_command (E : Engine) (cmd : String) (w : World)
    (hdot : cmd.data.head? = some '.')
    (hno : ∀ e ∈ handlers,
      ¬ e.name.data <+: ((E.dongmengdb_tokenize cmd).headD "").data.drop 1) :
    dongmengdb_shell_handle_cmd E cmd w =
      (.returned 1,
        { w with stderr := w.stderr ++
            ("ERROR: Unrecognized command: " ++ (E.dongmengdb_tokenize cmd).headD "" ++
              "\n") }) ∧
    (1 : Int) ≠ 0 := by
  have hnone := (find_handler_eq_none _ handlers handlers_name_len).2 hno
  simp only [dongmengdb_shell_handle_cmd, hdot, if_true, hnone, World.eprint]
  exact ⟨trivial, by decide⟩

/-- C11, evaluated on the line `.explai on` in a fresh session. -/
theorem unrecognized_command_witness :
    dongmengdb_shell_handle_cmd sample_engine ".explai on" sample_world =
      (.returned 1,
        { sample_world with stderr := "ERROR: Unrecognized command: .explai\n" }) :=
  (unrecognized_command sample_engine ".explai on" sample_world (by decide)
    (by decide)).1.trans (by decide)

/-! ### C12 -/

/-- C12. The code at a failing input: in a session without a database the two-token line
`.desc t` reaches the desc handler, which returns 0 and prints nothing, where the opt handler
and the SQL path report that no database is open and return 1. -/
theorem desc_without_database_returns_ok :
    sample_world.ctx.db = none ∧
    sample_engine.dongmengdb_tokenize ".desc t" = [".desc", "t"] ∧
    dongmengdb_shell_handle_cmd_desc [".desc", "t"] sample_world =
      (.returned 0, sample_world) ∧
    dongmengdb_shell_handle_cmd sample_engine ".desc t" sample_world =
      (.returned 0, sample_world) := by
  decide

/-- What the two handlers do in a session without a database, given two tokens: the opt
handler returns the non-zero status 1 and prints `ERROR: No database is open.` on standard
error; the desc handler returns `DONGMENGDB_OK` and prints nothing; neither calls a
collaborator nor changes the session. -/
theorem opt_and_desc_without_database (E : Engine) (e : handler_entry)
    (tokens : List String) (w : World) (hdb : w.ctx.db = none) (hlen : tokens.length = 2) :
    (dongmengdb_shell_handle_cmd_opt E e tokens w =
        (.returned 1, { w with stderr := w.stderr ++ "ERROR: No database is open.\n" }) ∧
      (1 : Int) ≠ 0) ∧
    dongmengdb_shell_handle_cmd_desc tokens w = (.returned DONGMENGDB_OK, w) := by
  simp [dongmengdb_shell_handle_cmd_opt, dongmengdb_shell_handle_cmd_desc, hdb, hlen,
    World.eprint]

/-- The opt handler evaluated on `.optimizer q` in a fresh session. -/
theorem opt_and_desc_without_database_witness :
    dongmengdb_shell_handle_cmd_opt sample_engine opt_entry [".optimizer", "q"]
        sample_world =
      (.returned 1, { sample_world with stderr := "ERROR: No database is open.\n" }) :=
  ((opt_and_desc_without_database sample_engine opt_entry [".optimizer", "q"] sample_world
    rfl rfl).1.1).trans (by decide)

/-! ### C13 -/

/-- What `dongmengdb_shell_handle_sql` does when prepare fails. -/
theorem handle_sql_prepare_failed (E : Engine) (sql : String) (w : World)
    (hprep : (E.dongmengdb_prepare w.ctx.db sql).1 ≠ DONGMENGDB_OK) :
    dongmengdb_shell_handle_sql E sql w =
      ((E.dongmengdb_prepare w.ctx.db sql).1,
        { w with
          stdout := w.stdout ++
            (if (E.dongmengdb_prepare w.ctx.db sql).1 = E.DONGMENGDB_EINVALIDSQL then
              "SQL syntax error.\n"
             else if (E.dongmengdb_prepare w.ctx.db sql).1 = E.DONGMENGDB_ENOMEM then
              "ERROR: Could not allocate memory.\n"
             else "")
          calls := w.calls ++
            [Call.dongmengdb_prepare w.ctx.db sql (E.dongmengdb_prepare w.ctx.db sql).1] }) := by
  unfold dongmengdb_shell_handle_sql
  simp only [hprep, if_false]
  split_ifs <;> simp [World.print, World.call]

/-- The status, the calls and the session of `dongmengdb_shell_handle_sql` after a successful
prepare. -/
theorem handle_sql_prepared (E : Engine) (sql : String) (w : World)
    (hprep : (E.dongmengdb_prepare w.ctx.db sql).1 = DONGMENGDB_OK) :
    (dongmengdb_shell_handle_sql E sql w).1 = (E.dongmengdb_prepare w.ctx.db sql).2.finalize ∧
    (dongmengdb_shell_handle_sql E sql w).2.calls =
      w.calls ++ [Call.dongmengdb_prepare w.ctx.db sql DONGMENGDB_OK] ++
        step_calls E.toMacros (E.dongmengdb_prepare w.ctx.db sql).2 ++
        [Call.dongmengdb_finalize (E.dongmengdb_prepare w.ctx.db sql).2.finalize] ∧
    (dongmengdb_shell_handle_sql E sql w).2.ctx = w.ctx ∧
    (dongmengdb_shell_handle_sql E sql w).2.stderr = w.stderr := by
  unfold dongmengdb_shell_handle_sql
  simp only [hprep, if_true]
  cases hh : w.ctx.header <;>
    by_cases hf : (E.dongmengdb_prepare w.ctx.db sql).2.finalize = E.DONGMENGDB_EMISUSE <;>
    simp [World.print, World.call, hh, hf]

/-- C13, as stated, fails when step ends with an error and finalize succeeds: the prepare
succeeds, `dongmengdb_step` ends with the constraint status 5, the constraint message is
printed, and `dongmengdb_shell_handle_sql` returns 0, the status of `dongmengdb_finalize`. -/
theorem finalize_status_replaces_step_status :
    (constraint_engine.dongmengdb_prepare sample_world.ctx.db "insert").1 = DONGMENGDB_OK ∧
    (constraint_engine.dongmengdb_prepare sample_world.ctx.db "insert").2.done =
      constraint_engine.DONGMENGDB_ECONSTRAINT ∧
    (constraint_engine.dongmengdb_prepare sample_world.ctx.db "insert").2.done = 5 ∧
    (constraint_engine.dongmengdb_prepare sample_world.ctx.db "insert").2.finalize = 0 ∧
    (dongmengdb_shell_handle_sql constraint_engine "insert" sample_world).1 = 0 ∧
    (dongmengdb_shell_handle_sql constraint_engine "insert" sample_world).2.stdout =
      "ERROR: SQL statement failed because of a constraint violation.\n" := by
  decide

/-- C13, amended. If prepare fails, `dongmengdb_shell_handle_sql` returns the prepare status;
its only collaborator call is the prepare (no step, no finalize) and all it prints is the
message for that status (no header). If prepare succeeds, it calls step until a status other
than `DONGMENGDB_ROW`, then finalize, and returns the status of finalize, which replaces the
status that ended the rows; that status only selects the message printed after the rows (one
of the four error messages, or nothing), which is followed by the misuse message of finalize
if finalize reports misuse. -/
theorem handle_sql_status (E : Engine) (sql : String) (w : World) :
    ((E.dongmengdb_prepare w.ctx.db sql).1 ≠ DONGMENGDB_OK →
      dongmengdb_shell_handle_sql E sql w =
        ((E.dongmengdb_prepare w.ctx.db sql).1,
          { w with
            stdout := w.stdout ++
              (if (E.dongmengdb_prepare w.ctx.db sql).1 = E.DONGMENGDB_EINVALIDSQL then
                "SQL syntax error.\n"
               else if (E.dongmengdb_prepare w.ctx.db sql).1 = E.DONGMENGDB_ENOMEM then
                "ERROR: Could not allocate memory.\n"
               else "")
            calls := w.calls ++
              [Call.dongmengdb_prepare w.ctx.db sql
                (E.dongmengdb_prepare w.ctx.db sql).1] })) ∧
    ((E.dongmengdb_prepare w.ctx.db sql).1 = DONGMENGDB_OK →
      (dongmengdb_shell_handle_sql E sql w).1 =
        (E.dongmengdb_prepare w.ctx.db sql).2.finalize ∧
      (dongmengdb_shell_handle_sql E sql w).2.calls =
        w.calls ++ [Call.dongmengdb_prepare w.ctx.db sql DONGMENGDB_OK] ++
          step_calls E.toMacros (E.dongmengdb_prepare w.ctx.db sql).2 ++
          [Call.dongmengdb_finalize (E.dongmengdb_prepare w.ctx.db sql).2.finalize] ∧
      (dongmengdb_shell_handle_sql E sql w).2.stdout =
        w.stdout ++
          (if w.ctx.header then
            print_header w.ctx.mode (E.dongmengdb_prepare w.ctx.db sql).2
              (E.dongmengdb_prepare w.ctx.db sql).2.column_count
           else "") ++
          render_rows E.toMacros w.ctx.mode
            (E.dongmengdb_prepare w.ctx.db sql).2.column_count
            (E.dongmengdb_prepare w.ctx.db sql).2.rows ++
          (if (E.dongmengdb_prepare w.ctx.db sql).2.done = E.DONGMENGDB_ECONSTRAINT then
            "ERROR: SQL statement failed because of a constraint violation.\n"
           else if (E.dongmengdb_prepare w.ctx.db sql).2.done = E.DONGMENGDB_EMISMATCH then
            "ERROR: Data type mismatch.\n"
           else if (E.dongmengdb_prepare w.ctx.db sql).2.done = E.DONGMENGDB_EMISUSE then
            "ERROR: API used incorrectly.\n"
           else if (E.dongmengdb_prepare w.ctx.db sql).2.done = E.DONGMENGDB_ERROR_IO then
            "ERROR: An I/O error has occurred when accessing the file.\n"
           else "") ++
          (if (E.dongmengdb_prepare w.ctx.db sql).2.finalize = E.DONGMENGDB_EMISUSE then
            "API used incorrectly.\n" else "") ∧
      (dongmengdb_shell_handle_sql E sql w).2.stderr = w.stderr ∧
      (dongmengdb_shell_handle_sql E sql w).2.ctx = w.ctx) :=
  ⟨handle_sql_prepare_failed E sql w,
   fun h => ⟨(handle_sql_prepared E sql w h).1, (handle_sql_prepared E sql w h).2.1,
     (handle_sql_stdout E sql w h).trans rfl, (handle_sql_prepared E sql w h).2.2.2,
     (handle_sql_prepared E sql w h).2.2.1⟩⟩

/-- C13, amended, evaluated: a prepare that fails with the status 1, and a statement whose
step ends with the status 5 and whose finalize returns 0. -/
theorem handle_sql_status_witness :
    dongmengdb_shell_handle_sql invalid_sql_engine "selec" sample_world =
      (1, { sample_world with
            stdout := "SQL syntax error.\n"
            calls := [Call.dongmengdb_prepare none "selec" 1] }) ∧
    (dongmengdb_shell_handle_sql constraint_engine "insert" sample_world).1 =
      constraint_stmt.finalize ∧
    (dongmengdb_shell_handle_sql constraint_engine "insert" sample_world).2.stdout =
      "ERROR: SQL statement failed because of a constraint violation.\n" :=
  ⟨((handle_sql_status invalid_sql_engine "selec" sample_world).1 (by decide)).trans
      (by decide),
   ((handle_sql_status constraint_engine "insert" sample_world).2 (by decide)).1,
   (((handle_sql_status constraint_engine "insert" sample_world).2 (by decide)).2.2.1).trans
      (by decide)⟩

/-! ### C14 -/

theorem toDigitsCore_length_le : ∀ (fuel K n : Nat) (ds : List Char),
    n < 10 ^ K → 1 ≤ K → (Nat.toDigitsCore 10 fuel n ds).length ≤ ds.length + K := by
  intro fuel
  induction fuel with
  | zero => intro K n ds _ _; simp [Nat.toDigitsCore]
  | succ fuel ih =>
    intro K n ds hn hK
    simp only [Nat.toDigitsCore]
    split
    · simp only [List.length_cons]; omega
    · rename_i hne
      obtain ⟨J, rfl⟩ : ∃ J, K = J + 1 := ⟨K - 1, by omega⟩
      have hJ : 1 ≤ J := by
        by_contra hc
        have : J = 0 := by omega
        subst this
        simp at hn
        omega
      have hdiv : n / 10 < 10 ^ J := by
        rw [Nat.div_lt_iff_lt_mul (by norm_num)]
        rw [pow_succ] at hn
        exact hn
      have := ih J (n / 10) (Nat.digitChar (n % 10) :: ds) hdiv hJ
      simp only [List.length_cons] at this
      omega

theorem toDigitsCore_length_ge_self : ∀ (fuel n : Nat) (ds : List Char),
    ds.length ≤ (Nat.toDigitsCore 10 fuel n ds).length := by
  intro fuel
  induction fuel with
  | zero => intro n ds; simp [Nat.toDigitsCore]
  | succ fuel ih =>
    intro n ds
    simp only [Nat.toDigitsCore]
    split
    · simp
    · have := ih (n / 10) (Nat.digitChar (n % 10) :: ds)
      simp only [List.length_cons] at this
      omega

theorem toDigitsCore_length_ge : ∀ (k fuel n : Nat) (ds : List Char),
    10 ^ k ≤ n → k < fuel → ds.length + (k + 1) ≤ (Nat.toDigitsCore 10 fuel n ds).length := by
  intro k
  induction k with
  | zero =>
    intro fuel n ds _ hf
    obtain ⟨f, rfl⟩ : ∃ f, fuel = f + 1 := ⟨fuel - 1, by omega⟩
    simp only [Nat.toDigitsCore]
    split
    · simp
    · have := toDigitsCore_length_ge_self f (n / 10) (Nat.digitChar (n % 10) :: ds)
      simp only [List.length_cons] at this
      omega
  | succ k ih =>
    intro fuel n ds hn hf
    obtain ⟨f, rfl⟩ : ∃ f, fuel = f + 1 := ⟨fuel - 1, by omega⟩
    have hdiv : 10 ^ k ≤ n / 10 := by
      rw [Nat.le_div_iff_mul_le (by norm_num)]
      rw [pow_succ] at hn
      exact hn
    have hpos : 0 < 10 ^ k := pow_pos (by norm_num) k
    simp only [Nat.toDigitsCore]
    split
    · omega
    · have := ih f (n / 10) (Nat.digitChar (n % 10) :: ds) hdiv (by omega)
      simp only [List.length_cons] at this
      omega

theorem repr_length_le (n K : Nat) (hn : n < 10 ^ K) (hK : 1 ≤ K) :
    (Nat.repr n).length ≤ K := by
  have := toDigitsCore_length_le (n + 1) K n [] hn hK
  simpa [Nat.repr, Nat.toDigits, List.asString, String.length] using this

theorem repr_length_ge (n k : Nat) (hn : 10 ^ k ≤ n) : k + 1 ≤ (Nat.repr n).length := by
  have hk : k < n + 1 := by
    have := Nat.lt_pow_self (by norm_num : 1 < 10) k
    omega
  have := toDigitsCore_length_ge k (n + 1) n [] hn hk
  simpa [Nat.repr, Nat.toDigits, List.asString, String.length] using this

theorem printf_i_eq_toString (v : Int) : printf_i v = toString v := by
  cases v with
  | ofNat m => simp [printf_i]; rfl
  | negSucc m => simp [printf_i, Int.negSucc_lt_zero]; rfl

theorem printf_i_length_le (v : Int) (hlo : -999999999 ≤ v) (hhi : v ≤ 2147483647) :
    (printf_i v).length ≤ 10 := by
  unfold printf_i
  split
  · have h := repr_length_le v.natAbs 9 (by omega) (by norm_num)
    rw [String.length_append]
    have : ("-" : String).length = 1 := rfl
    omega
  · exact repr_length_le v.natAbs 10 (by omega) (by norm_num)

theorem printf_i_length_eleven (v : Int) (hlo : -2147483648 ≤ v) (hhi : v ≤ -1000000000) :
    (printf_i v).length = 11 := by
  unfold printf_i
  rw [if_pos (by omega), String.length_append]
  have h1 := repr_length_le v.natAbs 10 (by omega) (by norm_num)
  have h2 := repr_length_ge v.natAbs 9 (by omega)
  have : ("-" : String).length = 1 := rfl
  omega

theorem printf_10i_length (v : Int) :
    (printf_10i v).length = (10 - (printf_i v).length) + (printf_i v).length := by
  rw [printf_10i, String.length_append]
  congr 1
  exact List.length_replicate _ _

theorem printf_10i_eq_of_long (v : Int) (h : 10 ≤ (printf_i v).length) :
    printf_10i v = printf_i v := by
  apply String.ext
  have h0 : 10 - (printf_i v).length = 0 := by omega
  rw [printf_10i, h0, String.data_append]
  rfl

/-- C14, as stated, fails at the least 32-bit value: in column mode the 4-byte integer
-2147483648 is printed in 11 characters, not in a field of 10. -/
theorem int_min_overflows_field :
    row_int_min.column_type 0 = sample_macros.SQL_INTEGER_4BYTE ∧
    row_int_min.column_int 0 = -2147483648 ∧
    render_column sample_macros .MODE_COLUMN row_int_min 0 = ("-2147483648", true) ∧
    ("-2147483648" : String).length = 11 := by
  decide

/-- C14, amended. For a column with one of the three integer tags and a value `v` in the
signed 32-bit range, the column loop prints the decimal representation of `v` without padding
in list mode, and in column mode the same digits right-justified in a field of at least 10
characters: blanks on the left up to 10 characters, so exactly 10 characters when
`-999999999 ≤ v`, and the 11 characters of `v` without padding when `v ≤ -1000000000`. -/
theorem integer_column_rendering (M : Macros) (row : Row) (i : Nat)
    (hnv : row.column_type i ≠ M.SQL_NOTVALID)
    (hint : row.column_type i = M.SQL_INTEGER_1BYTE ∨
      row.column_type i = M.SQL_INTEGER_2BYTE ∨ row.column_type i = M.SQL_INTEGER_4BYTE)
    (hlo : -2147483648 ≤ row.column_int i) (hhi : row.column_int i ≤ 2147483647) :
    (render_column M .MODE_LIST row i =
        (column_separator .MODE_LIST i ++ printf_i (row.column_int i), true) ∧
      printf_i (row.column_int i) = toString (row.column_int i)) ∧
    (render_column M .MODE_COLUMN row i =
        (column_separator .MODE_COLUMN i ++ printf_10i (row.column_int i), true) ∧
      printf_10i (row.column_int i) =
        String.mk (List.replicate (10 - (printf_i (row.column_int i)).length) ' ') ++
          printf_i (row.column_int i)) ∧
    (-999999999 ≤ row.column_int i → (printf_10i (row.column_int i)).length = 10) ∧
    (row.column_int i ≤ -1000000000 →
      printf_10i (row.column_int i) = printf_i (row.column_int i) ∧
      (printf_10i (row.column_int i)).length = 11) := by
  have hval : ∀ mode, render_value M mode row i =
      ((match mode with
        | .MODE_LIST => printf_i (row.column_int i)
        | .MODE_COLUMN => printf_10i (row.column_int i)), true) := by
    intro mode
    unfold render_value
    simp only [hnv, hint, if_false, if_true]
    cases mode <;> rfl
  refine ⟨⟨?_, printf_i_eq_toString _⟩, ⟨?_, rfl⟩, ?_, ?_⟩
  · rw [render_column, hval]
  · rw [render_column, hval]
  · intro h
    have := printf_i_length_le _ h hhi
    rw [printf_10i_length]
    omega
  · intro h
    have h11 := printf_i_length_eleven _ hlo h
    have heq := printf_10i_eq_of_long (row.column_int i) (by omega)
    exact ⟨heq, by rw [heq, h11]⟩


/-- C14, amended, evaluated on the integer 7 and on the least 32-bit value. -/
theorem integer_column_rendering_witness :
    render_column sample_macros .MODE_COLUMN row_with_null 0 = ("         7", true) ∧
    (printf_10i (row_int_min.column_int 0)).length = 11 :=
  ⟨((integer_column_rendering sample_macros row_with_null 0 (by decide) (by decide)
      (by decide) (by decide)).2.1.1).trans (by decide),
   ((integer_column_rendering sample_macros row_int_min 0 (by decide) (by decide)
      (by decide) (by decide)).2.2.2 (by decide)).2⟩

/-! ### C15 and C20: what the dispatcher does to the database and its path -/

theorem help_fold_ctx : ∀ (l : List handler_entry) (v : World),
    (l.foldl (fun w h => w.eprint (h.help ++ "\n")) v).ctx = v.ctx := by
  intro l
  induction l with
  | nil => intro v; rfl
  | cons a l ih => intro v; rw [List.foldl_cons, ih]; rfl

/-- The statement renderer does not touch the session. -/
theorem handle_sql_ctx (E : Engine) (sql : String) (w : World) :
    (dongmengdb_shell_handle_sql E sql w).2.ctx = w.ctx := by
  unfold dongmengdb_shell_handle_sql
  simp only
  split_ifs <;> simp [World.print, World.call]

/-- A handler either leaves the database and its path as they were, or it is the open
handler, called with two tokens, whose `dongmengdb_open` succeeded; it then installs the new
database and the path. -/
theorem handler_call_database (E : Engine) (e : handler_entry) (tokens : List String)
    (w : World) :
    ((e.call E tokens w).2.ctx.db = w.ctx.db ∧
      (e.call E tokens w).2.ctx.dbfile = w.ctx.dbfile) ∨
    (e.func = .cmd_open ∧ tokens.length = 2 ∧
      E.dongmengdb_open (tokens.getD 1 "") w.next_db = DONGMENGDB_OK ∧
      (e.call E tokens w).2.ctx.db = some w.next_db ∧
      (e.call E tokens w).2.ctx.dbfile = some (tokens.getD 1 "")) := by
  cases hf : e.func
  · by_cases hlen : tokens.length = 2
    · obtain ⟨t0, path, rfl⟩ := List.length_eq_two.1 hlen
      have hget : [t0, path].getD 1 "" = path := rfl
      rw [hget]
      by_cases hrc : E.dongmengdb_open path w.next_db = DONGMENGDB_OK
      · right
        have hcall : e.call E [t0, path] w =
            dongmengdb_shell_handle_cmd_open E e [t0, path] w := by
          simp only [handler_entry.call, hf]
        rw [hcall, open_success E e t0 path w hrc]
        exact ⟨rfl, rfl, hrc, rfl, rfl⟩
      · left
        simp [handler_entry.call, hf, dongmengdb_shell_handle_cmd_open, hrc,
          World.call, World.eprint]
    · left
      simp [handler_entry.call, hf, dongmengdb_shell_handle_cmd_open, hlen, usage_error,
        World.eprint]
  · left
    simp only [handler_entry.call, hf, dongmengdb_shell_handle_cmd_parse]
    split_ifs <;> simp [usage_error, World.eprint, World.call, World.print]
  · left
    simp only [handler_entry.call, hf, dongmengdb_shell_handle_cmd_opt]
    cases hdb : w.ctx.db <;> simp only [] <;> split_ifs <;>
      simp [usage_error, World.eprint, World.call, World.print, hdb]
  · left
    simp only [handler_entry.call, hf, dongmengdb_shell_handle_cmd_headers]
    split_ifs <;> simp [usage_error, World.eprint]
  · left
    simp only [handler_entry.call, hf, dongmengdb_shell_handle_cmd_mode]
    split_ifs <;> simp [usage_error, World.eprint]
  · left
    simp only [handler_entry.call, hf, dongmengdb_shell_handle_cmd_explain]
    split_ifs <;> simp [usage_error, World.eprint]
  · left
    simp [handler_entry.call, hf, dongmengdb_shell_handle_cmd_help, help_fold_ctx]
  · left
    cases hdb : w.ctx.db <;>
      simp [handler_entry.call, hf, dongmengdb_shell_handle_cmd_exit, hdb, World.call]
  · left
    cases hdb : w.ctx.db <;>
      simp [handler_entry.call, hf, dongmengdb_shell_handle_cmd_desc, hdb, World.call]

/-- The dispatcher either leaves the database and its path as they were, or it has
dispatched a two-token line to the open handler and `dongmengdb_open` succeeded. -/
theorem handle_cmd_database (E : Engine) (cmd : String) (w : World) :
    ((dongmengdb_shell_handle_cmd E cmd w).2.ctx.db = w.ctx.db ∧
      (dongmengdb_shell_handle_cmd E cmd w).2.ctx.dbfile = w.ctx.dbfile) ∨
    (cmd.data.head? = some '.' ∧
      (∃ e, find_handler (((E.dongmengdb_tokenize cmd).headD "").data.drop 1) handlers =
          some e ∧ e.func = .cmd_open) ∧
      (E.dongmengdb_tokenize cmd).length = 2 ∧
      E.dongmengdb_open ((E.dongmengdb_tokenize cmd).getD 1 "") w.next_db = DONGMENGDB_OK ∧
      (dongmengdb_shell_handle_cmd E cmd w).2.ctx.db = some w.next_db ∧
      (dongmengdb_shell_handle_cmd E cmd w).2.ctx.dbfile =
        some ((E.dongmengdb_tokenize cmd).getD 1 "")) := by
  by_cases hdot : cmd.data.head? = some '.'
  · cases hfind : find_handler (((E.dongmengdb_tokenize cmd).headD "").data.drop 1) handlers
      with
    | none =>
      left
      have hcall : dongmengdb_shell_handle_cmd E cmd w =
          (.returned 1,
            w.eprint ("ERROR: Unrecognized command: " ++
              (E.dongmengdb_tokenize cmd).headD "" ++ "\n")) := by
        simp only [dongmengdb_shell_handle_cmd, hdot, if_true, hfind]
      rw [hcall]
      exact ⟨rfl, rfl⟩
    | some e =>
      have hcall : dongmengdb_shell_handle_cmd E cmd w =
          e.call E (E.dongmengdb_tokenize cmd) w := by
        simp only [dongmengdb_shell_handle_cmd, hdot, if_true, hfind]
      rw [hcall]
      rcases handler_call_database E e (E.dongmengdb_tokenize cmd) w with h | h
      · exact Or.inl h
      · exact Or.inr ⟨hdot, ⟨e, rfl, h.1⟩, h.2.1, h.2.2.1, h.2.2.2.1, h.2.2.2.2⟩
  · left
    cases hdb : w.ctx.db with
    | none => simp [dongmengdb_shell_handle_cmd, hdot, hdb, World.eprint]
    | some db =>
      have := handle_sql_ctx E cmd w
      simp [dongmengdb_shell_handle_cmd, hdot, hdb, this]

/-- C20. Unless the line is dispatched to the open handler with two tokens and the engine's
open succeeds, `dongmengdb_shell_handle_cmd` leaves the database and its path as they were.
`dongmengdb_shell_handle_sql` leaves the whole session (database, path, header flag, display
mode) as it was, whatever the engine returns, and so does the dispatcher on a line that does
not start with `.`. -/
theorem database_changed_only_by_open (E : Engine) (cmd : String) (w : World) :
    (¬ (cmd.data.head? = some '.' ∧
        (∃ e, find_handler (((E.dongmengdb_tokenize cmd).headD "").data.drop 1) handlers =
            some e ∧ e.func = .cmd_open) ∧
        (E.dongmengdb_tokenize cmd).length = 2 ∧
        E.dongmengdb_open ((E.dongmengdb_tokenize cmd).getD 1 "") w.next_db =
          DONGMENGDB_OK) →
      (dongmengdb_shell_handle_cmd E cmd w).2.ctx.db = w.ctx.db ∧
      (dongmengdb_shell_handle_cmd E cmd w).2.ctx.dbfile = w.ctx.dbfile) ∧
    (∀ sql, (dongmengdb_shell_handle_sql E sql w).2.ctx = w.ctx) ∧
    (cmd.data.head? ≠ some '.' → (dongmengdb_shell_handle_cmd E cmd w).2.ctx = w.ctx) := by
  refine ⟨?_, fun sql => handle_sql_ctx E sql w, ?_⟩
  · intro hnot
    rcases handle_cmd_database E cmd w with h | ⟨hdot, he, hlen, hrc, _, _⟩
    · exact h
    · exact absurd ⟨hdot, he, hlen, hrc⟩ hnot
  · intro hdot
    cases hdb : w.ctx.db with
    | none => simp [dongmengdb_shell_handle_cmd, hdot, hdb, World.eprint]
    | some db =>
      have := handle_sql_ctx E cmd w
      simp [dongmengdb_shell_handle_cmd, hdot, hdb, this]

/-- C20, evaluated: `.open missing.db` (the open fails) and a SQL line, in a session that
holds database 0. -/
theorem database_changed_only_by_open_witness :
    ((dongmengdb_shell_handle_cmd sample_engine ".open missing.db"
        { sample_world with
          ctx := { sample_world.ctx with db := some 0, dbfile := some "a.db" }
          next_db := 1 }).2.ctx.db = some 0 ∧
      (dongmengdb_shell_handle_cmd sample_engine ".open missing.db"
        { sample_world with
          ctx := { sample_world.ctx with db := some 0, dbfile := some "a.db" }
          next_db := 1 }).2.ctx.dbfile = some "a.db") ∧
    (dongmengdb_shell_handle_cmd sample_engine "select * from t"
        { sample_world with
          ctx := { sample_world.ctx with db := some 0, dbfile := some "a.db" }
          next_db := 1 }).2.ctx =
      { sample_world.ctx with db := some 0, dbfile := some "a.db" } :=
  ⟨(database_changed_only_by_open sample_engine ".open missing.db"
      { sample_world with
        ctx := { sample_world.ctx with db := some 0, dbfile := some "a.db" }
        next_db := 1 }).1 (by decide),
   (database_changed_only_by_open sample_engine "select * from t"
      { sample_world with
        ctx := { sample_world.ctx with db := some 0, dbfile := some "a.db" }
        next_db := 1 }).2.2 (by decide)⟩

/-! ### C16 -/

/-- The type switch at the invalid tag: the message carries the tag, whatever the column. -/
theorem render_value_notvalid (M : Macros) (mode : shell_mode) (row : Row) (i : Nat)
    (h : row.column_type i = M.SQL_NOTVALID) :
    render_value M mode row i = (notvalid_message M.SQL_NOTVALID, false) := by
  unfold render_value
  simp [h]

/-- C16. The code at a failing input: in the row `7`, invalid tag, `7`, the column with the
invalid tag is column 1, and the message the column loop prints for it carries the number -1,
the value of the tag, not the column index; nothing is printed for column 2. -/
theorem invalid_tag_message_names_the_tag :
    row_notvalid_at_1.column_type 1 = sample_macros.SQL_NOTVALID ∧
    render_column sample_macros .MODE_LIST row_notvalid_at_1 1 =
      ("|ERROR: Column -1 return an invalid type.\n", false) ∧
    render_row sample_macros .MODE_LIST 3 row_notvalid_at_1 =
      "7|ERROR: Column -1 return an invalid type.\n\n" := by
  decide

/-! ### C17 -/

theorem digitChar_ne_newline (d : Nat) : Nat.digitChar d ≠ '\n' := by
  by_cases h : d < 16
  · interval_cases d <;> decide
  · have e : Nat.digitChar d = '*' := by
      unfold Nat.digitChar
      simp only [show ¬ d = 0 by omega, show ¬ d = 1 by omega, show ¬ d = 2 by omega,
        show ¬ d = 3 by omega, show ¬ d = 4 by omega, show ¬ d = 5 by omega,
        show ¬ d = 6 by omega, show ¬ d = 7 by omega, show ¬ d = 8 by omega,
        show ¬ d = 9 by omega, show ¬ d = 10 by omega, show ¬ d = 11 by omega,
        show ¬ d = 12 by omega, show ¬ d = 13 by omega, show ¬ d = 14 by omega,
        show ¬ d = 15 by omega, if_false]
    rw [e]
    decide

theorem toDigitsCore_no_newline (b : Nat) : ∀ (fuel n : Nat) (ds : List Char),
    '\n' ∉ ds → '\n' ∉ Nat.toDigitsCore b fuel n ds := by
  intro fuel
  induction fuel with
  | zero => intro n ds h; simpa [Nat.toDigitsCore] using h
  | succ fuel ih =>
    intro n ds h
    simp only [Nat.toDigitsCore]
    split
    · simp only [List.mem_cons, not_or]
      exact ⟨fun hc => digitChar_ne_newline _ hc.symm, h⟩
    · apply ih
      simp only [List.mem_cons, not_or]
      exact ⟨fun hc => digitChar_ne_newline _ hc.symm, h⟩

theorem printf_i_no_newline (n : Int) : '\n' ∉ (printf_i n).data := by
  have hrepr : ∀ m : Nat, '\n' ∉ (Nat.repr m).data := by
    intro m
    simp only [Nat.repr, Nat.toDigits, List.asString]
    exact toDigitsCore_no_newline 10 _ _ [] (by simp)
  unfold printf_i
  split
  · simp only [String.data_append, List.mem_append, not_or]
    exact ⟨by decide, hrepr _⟩
  · exact hrepr _

theorem printf_10i_no_newline (n : Int) : '\n' ∉ (printf_10i n).data := by
  rw [printf_10i, String.data_append, List.mem_append, not_or]
  refine ⟨?_, printf_i_no_newline n⟩
  intro h
  have := List.eq_of_mem_replicate h
  exact absurd this (by decide)

theorem printf_s10_no_newline (s : String) (hs : '\n' ∉ s.data) :
    '\n' ∉ (printf_s10 s).data := by
  rw [printf_s10]
  simp only [List.mem_append, not_or]
  refine ⟨fun h => hs (List.mem_of_mem_take h), ?_⟩
  intro h
  have := List.eq_of_mem_replicate h
  exact absurd this (by decide)

theorem column_separator_no_newline (mode : shell_mode) (i : Nat) :
    '\n' ∉ (column_separator mode i).data := by
  cases mode <;> simp only [column_separator, COL_SEPARATOR] <;> split <;> decide

/-- An iteration of the type switch that lets the loop go on prints no newline, unless the
text of the column has one. -/
theorem render_value_no_newline (M : Macros) (mode : shell_mode) (row : Row) (i : Nat)
    (hgo : (render_value M mode row i).2 = true)
    (htext : '\n' ∉ (row.column_text i).data) :
    '\n' ∉ (render_value M mode row i).1.data := by
  unfold render_value at hgo ⊢
  simp only at hgo ⊢
  cases mode <;> simp only at hgo ⊢ <;> split_ifs at hgo ⊢
  · exact printf_i_no_newline _
  · simp
  · exact htext
  · exact printf_10i_no_newline _
  · decide
  · exact printf_s10_no_newline _ htext

/-- An iteration of the type switch that breaks the loop prints one line: a text without
newline, then the newline that ends the error message. -/
theorem render_value_break_line (M : Macros) (mode : shell_mode) (row : Row) (i : Nat)
    (hbreak : (render_value M mode row i).2 = false) :
    ∃ m : String, (render_value M mode row i).1 = m ++ "\n" ∧ '\n' ∉ m.data := by
  unfold render_value at hbreak ⊢
  simp only at hbreak ⊢
  cases mode <;> simp only at hbreak ⊢ <;> split_ifs at hbreak ⊢
  all_goals first
    | exact ⟨"ERROR: Column " ++ printf_i (row.column_type i) ++ " return an invalid type.",
        by simp only [notvalid_message, String.append_assoc]; rfl,
        by
          simp only [String.data_append, List.mem_append, not_or]
          exact ⟨⟨by decide, printf_i_no_newline _⟩, by decide⟩⟩
    | exact ⟨"ERROR: Column " ++ printf_i i ++ " returned an invalid type.",
        by simp only [invalid_type_message, String.append_assoc]; rfl,
        by
          simp only [String.data_append, List.mem_append, not_or]
          exact ⟨⟨by decide, printf_i_no_newline _⟩, by decide⟩⟩
    | exact ⟨"ERROR: THe length (" ++ printf_i ((row.column_text i).length : Int) ++
          ") of the text in column " ++ printf_i i ++ " does not match its type (" ++
          printf_i (row.column_type i) ++ ").",
        by simp only [length_message, String.append_assoc]; rfl,
        by
          simp only [String.data_append, List.mem_append, not_or]
          exact ⟨⟨⟨⟨⟨⟨by decide, printf_i_no_newline _⟩, by decide⟩, printf_i_no_newline _⟩,
            by decide⟩, printf_i_no_newline _⟩, by decide⟩⟩

theorem render_columns_no_newline (M : Macros) (mode : shell_mode) (row : Row)
    (htext : ∀ j, '\n' ∉ (row.column_text j).data) :
    ∀ (n i : Nat), (∀ j, j < n → (render_column M mode row (i + j)).2 = true) →
      '\n' ∉ (render_columns M mode row n i).data := by
  intro n
  induction n with
  | zero => intro i _; simp [render_columns]
  | succ n ih =>
    intro i hgo
    have h0 : (render_column M mode row i).2 = true := by
      simpa using hgo 0 (Nat.succ_pos n)
    have ih2 := ih (i + 1)
      (fun j hj => by
        have := hgo (j + 1) (by omega)
        rwa [show i + 1 + j = i + (j + 1) by omega])
    simp only [render_columns, h0, if_true, String.data_append, List.mem_append, not_or]
    refine ⟨?_, ih2⟩
    simp only [render_column, String.data_append, List.mem_append, not_or]
    exact ⟨column_separator_no_newline mode i,
      render_value_no_newline M mode row i h0 (htext i)⟩


/-- C17, as stated, fails for a row that ends early: the row `7`, invalid tag, `7` has no
newline in its values, and its output has two newline characters, the one that ends the error
message and the one that ends the row. -/
theorem broken_row_has_two_newlines :
    (∀ j, j < 3 → '\n' ∉ (row_notvalid_at_1.column_text j).data) ∧
    render_row sample_macros .MODE_LIST 3 row_notvalid_at_1 =
      "7|ERROR: Column -1 return an invalid type.\n\n" ∧
    (render_row sample_macros .MODE_LIST 3 row_notvalid_at_1).data.count '\n' = 2 := by
  decide

/-- C17, amended. With text values free of newlines: a row in which every column is rendered
is a text without newline followed by one newline, so it has exactly one newline character,
at its end; a row in which the column loop breaks (invalid tag, odd text tag or text-length
mismatch) is a text without newline followed by two newlines, the one that ends the error
message and the one that ends the row, so it has exactly two, at its end. -/
theorem row_newlines (M : Macros) (mode : shell_mode) (numcol : Int) (row : Row)
    (htext : ∀ j, '\n' ∉ (row.column_text j).data) :
    ((∀ j, j < numcol.toNat → (render_column M mode row j).2 = true) →
      '\n' ∉ (render_columns M mode row numcol.toNat 0).data ∧
      render_row M mode numcol row = render_columns M mode row numcol.toNat 0 ++ "\n" ∧
      (render_row M mode numcol row).data.count '\n' = 1) ∧
    (∀ k : Nat, (k : Int) < numcol →
      (∀ j, j < k → (render_column M mode row j).2 = true) →
      (render_column M mode row k).2 = false →
      ∃ body : String, '\n' ∉ body.data ∧
        render_row M mode numcol row = body ++ "\n" ++ "\n" ∧
        (render_row M mode numcol row).data.count '\n' = 2) := by
  constructor
  · intro hgo
    have hno := render_columns_no_newline M mode row htext numcol.toNat 0
      (fun j hj => by simpa using hgo j hj)
    refine ⟨hno, rfl, ?_⟩
    rw [render_row, String.data_append, List.count_append, List.count_eq_zero_of_not_mem hno]
    decide
  · intro k hk hbefore hbreak
    obtain ⟨m, hm, hmno⟩ := render_value_break_line M mode row k hbreak
    have hrow := render_row_break M mode row numcol k hk hbefore hbreak
    have hjoin := render_columns_all M mode row k 0 (fun j hj => by simpa using hbefore j hj)
    simp only [Nat.zero_add] at hjoin
    have hno := render_columns_no_newline M mode row htext k 0
      (fun j hj => by simpa using hbefore j hj)
    have hbody : '\n' ∉ (render_columns M mode row k 0 ++ column_separator mode k ++ m).data := by
      simp only [String.data_append, List.mem_append, not_or]
      exact ⟨⟨hno, column_separator_no_newline mode k⟩, hmno⟩
    have heq : render_row M mode numcol row =
        (render_columns M mode row k 0 ++ column_separator mode k ++ m) ++ "\n" ++ "\n" := by
      rw [hrow, ← hjoin, render_column, hm]
      simp only [String.append_assoc]
    refine ⟨_, hbody, heq, ?_⟩
    rw [heq, String.data_append, String.data_append, List.count_append, List.count_append,
      List.count_eq_zero_of_not_mem hbody]
    decide


/-- C17, amended, evaluated on the row `7`, null, `7` and on the row `7`, invalid tag,
`7`. -/
theorem row_newlines_witness :
    (render_row sample_macros .MODE_LIST 3 row_with_null).data.count '\n' = 1 ∧
    (∃ body : String, '\n' ∉ body.data ∧
      render_row sample_macros .MODE_LIST 3 row_notvalid_at_1 = body ++ "\n" ++ "\n" ∧
      (render_row sample_macros .MODE_LIST 3 row_notvalid_at_1).data.count '\n' = 2) :=
  ⟨((row_newlines sample_macros .MODE_LIST 3 row_with_null
      (fun _ => by simp [row_with_null])).1
      (by decide)).2.2,
   (row_newlines sample_macros .MODE_LIST 3 row_notvalid_at_1
      (fun _ => by simp [row_notvalid_at_1])).2 1
      (by decide) (by decide) (by decide)⟩

/-! ### C18 -/

theorem tdiv_two_of_even (x : Int) (h : Even x) : Int.tdiv x 2 = x / 2 :=
  Int.tdiv_eq_ediv_of_dvd (even_iff_two_dvd.1 h)

/-- C18, as stated, fails in what the length error cites: for the tag 19 (decoded length 3)
and the text `ab` the message cites the actual length 2, the column 0 and the tag 19; the
decoded length 3 does not occur in it. -/
theorem short_text_message_cites_the_tag :
    row_short_text.column_type 0 = 19 ∧ row_short_text.column_text 0 = "ab" ∧
    ((19 : Int) - 13) / 2 = 3 ∧
    render_column sample_macros .MODE_LIST row_short_text 0 =
      ("ERROR: THe length (2) of the text in column 0 does not match its type (19).\n",
        false) ∧
    '3' ∉ (render_column sample_macros .MODE_LIST row_short_text 0).1.data := by
  decide

/-- C18, amended. For a column whose tag `t` is none of the five named tags and has `t - 13`
even, and for its text `s`: if the length of `s` is `(t - 13) / 2`, the column loop prints `s`
as it is in list mode and `s` cut or padded with blanks on the right to exactly 10 characters
in column mode, and goes on; if the length differs, it prints the length error, which cites
the actual length of `s`, the column index and the tag `t` (not the decoded length), prints
nothing of `s`, and breaks, so that in a row whose loop reaches this column nothing follows
the error but the newline of the row. -/
theorem text_column_rendering (M : Macros) (mode : shell_mode) (row : Row) (i : Nat)
    (hnv : row.column_type i ≠ M.SQL_NOTVALID)
    (h1 : row.column_type i ≠ M.SQL_INTEGER_1BYTE)
    (h2 : row.column_type i ≠ M.SQL_INTEGER_2BYTE)
    (h4 : row.column_type i ≠ M.SQL_INTEGER_4BYTE)
    (hnull : row.column_type i ≠ M.SQL_NULL)
    (heven : Even (row.column_type i - 13)) :
    (((row.column_text i).length : Int) = (row.column_type i - 13) / 2 →
      render_column M mode row i =
        (column_separator mode i ++
          (match mode with
           | .MODE_LIST => row.column_text i
           | .MODE_COLUMN => printf_s10 (row.column_text i)), true) ∧
      (printf_s10 (row.column_text i)).data =
        (row.column_text i).data.take 10 ++
          List.replicate (10 - (row.column_text i).length) ' ' ∧
      (printf_s10 (row.column_text i)).length = 10) ∧
    (((row.column_text i).length : Int) ≠ (row.column_type i - 13) / 2 →
      render_column M mode row i =
        (column_separator mode i ++
          length_message (row.column_text i).length i (row.column_type i), false) ∧
      ∀ numcol : Int, (i : Int) < numcol →
        (∀ j, j < i → (render_column M mode row j).2 = true) →
        render_row M mode numcol row =
          String.join ((List.range i).map (fun j => (render_column M mode row j).1)) ++
            (column_separator mode i ++
              length_message (row.column_text i).length i (row.column_type i)) ++ "\n") := by
  have hval := render_value_text_tag M mode row i hnv h1 h2 h4 hnull
  have hm := (tmod_two_eq_zero_iff_even _).2 heven
  have hdiv := tdiv_two_of_even _ heven
  simp only [hm, ne_eq, not_true_eq_false, if_false, hdiv] at hval
  constructor
  · intro hlen
    refine ⟨?_, printf_s10_data _, printf_s10_length _⟩
    rw [render_column, hval]
    cases mode <;> simp only [hlen, not_true_eq_false, if_false]
  · intro hlen
    have hcol : render_column M mode row i =
        (column_separator mode i ++
          length_message (row.column_text i).length i (row.column_type i), false) := by
      rw [render_column, hval]
      simp [hlen]
    refine ⟨hcol, ?_⟩
    intro numcol hi hbefore
    have hrow := render_row_break M mode row numcol i hi hbefore (by rw [hcol])
    rw [hcol] at hrow
    exact hrow

/-- C18, amended, evaluated: the text `ann` under the tag 19 in column mode, and the text
`ab` under the tag 19. -/
theorem text_column_rendering_witness :
    render_column sample_macros .MODE_COLUMN sample_row 1 = (" ann       ", true) ∧
    render_row sample_macros .MODE_LIST 2 row_short_text =
      "ERROR: THe length (2) of the text in column 0 does not match its type (19).\n\n" :=
  ⟨(((text_column_rendering sample_macros .MODE_COLUMN sample_row 1 (by decide) (by decide)
      (by decide) (by decide) (by decide) (by decide)).1 (by decide)).1).trans (by decide),
   ((((text_column_rendering sample_macros .MODE_LIST row_short_text 0 (by decide)
      (by decide) (by decide) (by decide) (by decide) (by decide)).2 (by decide)).2 2
      (by decide) (by decide))).trans (by decide)⟩

/-! ### C19 -/

theorem handlers_names :
    handlers.map (fun e => e.name) =
      ["open", "parse", "opt", "headers", "mode", "explain", "help", "exit", "desc"] := by
  rfl

theorem names_prefix_free :
    ∀ n1 ∈ ["open", "parse", "opt", "headers", "mode", "explain", "help", "exit", "desc"],
    ∀ n2 ∈ ["open", "parse", "opt", "headers", "mode", "explain", "help", "exit", "desc"],
      n1.data <+: n2.data → n1 = n2 := by
  decide

theorem handlers_name_injective :
    ∀ e1 ∈ handlers, ∀ e2 ∈ handlers, e1.name = e2.name → e1 = e2 := by
  have hnodup : (handlers.map (fun e => e.name)).Nodup := by
    rw [handlers_names]
    decide
  exact fun e1 h1 e2 h2 h => List.inj_on_of_nodup_map hnodup h1 h2 h

/-- No name of the registry is a prefix of the name of another entry. -/
theorem handlers_prefix_free :
    ∀ e1 ∈ handlers, ∀ e2 ∈ handlers, e1.name.data <+: e2.name.data → e1 = e2 := by
  intro e1 h1 e2 h2 hp
  have m1 : e1.name ∈ handlers.map (fun e => e.name) := List.mem_map_of_mem _ h1
  have m2 : e2.name ∈ handlers.map (fun e => e.name) := List.mem_map_of_mem _ h2
  rw [handlers_names] at m1 m2
  exact handlers_name_injective e1 h1 e2 h2 (names_prefix_free _ m1 _ m2 hp)

/-- At most one entry of the registry matches a token. -/
theorem handlers_match_unique (t : List Char) :
    ∀ e1 ∈ handlers, ∀ e2 ∈ handlers,
      e1.name.data <+: t → e2.name.data <+: t → e1 = e2 := by
  intro e1 h1 e2 h2 p1 p2
  rcases Nat.le_total e1.name.data.length e2.name.data.length with hle | hle
  · exact handlers_prefix_free e1 h1 e2 h2 (List.prefix_of_prefix_length_le p1 p2 hle)
  · exact (handlers_prefix_free e2 h2 e1 h1 (List.prefix_of_prefix_length_le p2 p1 hle)).symm

/-- The scan of lines 49-56 returns the first entry whose name is the token's first
`name_len` characters. -/
theorem find_handler_eq_find (t : List Char) :
    ∀ l : List handler_entry, (∀ e ∈ l, e.name_len = e.name.length) →
      find_handler t l = l.find? (fun e => decide (t.take e.name_len = e.name.data)) := by
  intro l
  induction l with
  | nil => intro _; rfl
  | cons a l ih =>
    intro hl
    have ha : a.name_len = a.name.data.length := hl a (List.mem_cons_self _ _)
    have ih2 := ih (fun e he => hl e (List.mem_cons_of_mem _ he))
    have hs : strncmp_eq t a.name.data a.name_len = decide (t.take a.name_len = a.name.data) := by
      rw [strncmp_eq, ha, List.take_length]
      by_cases h : List.take a.name.data.length t = a.name.data
      · rw [decide_eq_true h, beq_iff_eq]
        exact h
      · rw [decide_eq_false h, beq_eq_false_iff_ne]
        exact h
    rw [find_handler, List.find?_cons, hs, ih2]
    by_cases h : t.take a.name_len = a.name.data <;> simp [h]

/-- In a list whose entries match a token at most once, the scan finds an entry exactly when
it is in the list and matches. -/
theorem find_handler_eq_some (t : List Char) :
    ∀ l : List handler_entry, (∀ e ∈ l, e.name_len = e.name.length) →
      (∀ e1 ∈ l, ∀ e2 ∈ l, e1.name.data <+: t → e2.name.data <+: t → e1 = e2) →
      ∀ e, (find_handler t l = some e ↔ e ∈ l ∧ e.name.data <+: t) := by
  intro l
  induction l with
  | nil => intro _ _ e; simp [find_handler]
  | cons a l ih =>
    intro hl huniq e
    have ha := strncmp_eq_iff_name_leads t a (hl a (List.mem_cons_self _ _))
    have ih2 := ih (fun e he => hl e (List.mem_cons_of_mem _ he))
      (fun e1 h1 e2 h2 => huniq e1 (List.mem_cons_of_mem _ h1) e2 (List.mem_cons_of_mem _ h2)) e
    by_cases hp : a.name.data <+: t
    · rw [find_handler, if_pos (ha.2 hp)]
      constructor
      · intro h
        have : a = e := by simpa using h
        subst this
        exact ⟨List.mem_cons_self _ _, hp⟩
      · rintro ⟨hmem, hpe⟩
        rw [huniq a (List.mem_cons_self _ _) e hmem hp hpe]
    · have hf : ¬ strncmp_eq t a.name.data a.name_len = true := fun h => hp (ha.1 h)
      rw [find_handler, if_neg hf, ih2]
      constructor
      · rintro ⟨hmem, hpe⟩
        exact ⟨List.mem_cons_of_mem _ hmem, hpe⟩
      · rintro ⟨hmem, hpe⟩
        rcases List.mem_cons.1 hmem with h | h
        · subst h
          exact absurd hpe hp
        · exact ⟨h, hpe⟩

/-- The entry found does not depend on the order of the registry. -/
theorem find_handler_perm (t : List Char) (l : List handler_entry) (hperm : l.Perm handlers) :
    find_handler t l = find_handler t handlers := by
  have hl : ∀ e ∈ l, e.name_len = e.name.length :=
    fun e he => handlers_name_len e (hperm.mem_iff.1 he)
  have hu : ∀ e1 ∈ l, ∀ e2 ∈ l, e1.name.data <+: t → e2.name.data <+: t → e1 = e2 :=
    fun e1 h1 e2 h2 => handlers_match_unique t e1 (hperm.mem_iff.1 h1) e2 (hperm.mem_iff.1 h2)
  cases hfind : find_handler t handlers with
  | none =>
    have hno := (find_handler_eq_none t handlers handlers_name_len).1 hfind
    exact (find_handler_eq_none t l hl).2 (fun e he => hno e (hperm.mem_iff.1 he))
  | some e =>
    have hsome := (find_handler_eq_some t handlers handlers_name_len
      (handlers_match_unique t) e).1 hfind
    exact (find_handler_eq_some t l hl hu e).2 ⟨hperm.mem_iff.2 hsome.1, hsome.2⟩

/-- C19. For a line that starts with `.`, with `t` the first token without its first
character: the scan of the registry returns the first entry, in registry order, whose name is
the first `name_len` characters of `t`, and the dispatcher's result is that of the entry's
handler, status and state unchanged. No name of the registry is a prefix of another, so at
most one entry matches `t`, and the entry found is the same for every reordering of the
registry. A line whose first token is `.optimizer` goes to the opt handler with the opt
descriptor; a line whose first token is `.explai` matches nothing and is refused as
unrecognized with the status 1. -/
theorem dispatch_first_match (E : Engine) (cmd : String) (w : World)
    (hdot : cmd.data.head? = some '.') :
    find_handler (((E.dongmengdb_tokenize cmd).headD "").data.drop 1) handlers =
      handlers.find? (fun e =>
        decide ((((E.dongmengdb_tokenize cmd).headD "").data.drop 1).take e.name_len =
          e.name.data)) ∧
    (∀ e, find_handler (((E.dongmengdb_tokenize cmd).headD "").data.drop 1) handlers =
        some e →
      dongmengdb_shell_handle_cmd E cmd w = e.call E (E.dongmengdb_tokenize cmd) w) ∧
    (∀ e1 ∈ handlers, ∀ e2 ∈ handlers, e1.name.data <+: e2.name.data → e1 = e2) ∧
    (∀ e1 ∈ handlers, ∀ e2 ∈ handlers,
      e1.name.data <+: ((E.dongmengdb_tokenize cmd).headD "").data.drop 1 →
      e2.name.data <+: ((E.dongmengdb_tokenize cmd).headD "").data.drop 1 → e1 = e2) ∧
    (∀ l : List handler_entry, l.Perm handlers →
      find_handler (((E.dongmengdb_tokenize cmd).headD "").data.drop 1) l =
        find_handler (((E.dongmengdb_tokenize cmd).headD "").data.drop 1) handlers) ∧
    ((E.dongmengdb_tokenize cmd).headD "" = ".optimizer" →
      dongmengdb_shell_handle_cmd E cmd w =
        dongmengdb_shell_handle_cmd_opt E opt_entry (E.dongmengdb_tokenize cmd) w) ∧
    ((E.dongmengdb_tokenize cmd).headD "" = ".explai" →
      dongmengdb_shell_handle_cmd E cmd w =
        (.returned 1,
          { w with stderr := w.stderr ++ ("ERROR: Unrecognized command: " ++ ".explai" ++
              "\n") })) := by
  refine ⟨find_handler_eq_find _ handlers handlers_name_len, ?_, handlers_prefix_free,
    handlers_match_unique _, fun l hl => find_handler_perm _ l hl, ?_, ?_⟩
  · intro e he
    simp only [dongmengdb_shell_handle_cmd, hdot, if_true, he]
  · intro htok
    have hfind : find_handler (((E.dongmengdb_tokenize cmd).headD "").data.drop 1) handlers =
        some opt_entry := by
      rw [htok]
      decide
    simp only [dongmengdb_shell_handle_cmd, hdot, if_true, hfind]
    rfl
  · intro htok
    have hfind : find_handler (((E.dongmengdb_tokenize cmd).headD "").data.drop 1) handlers =
        none := by
      rw [htok]
      decide
    simp only [dongmengdb_shell_handle_cmd, hdot, if_true, hfind, World.eprint]
    rw [htok]

/-- C19, evaluated on the lines `.optimizer q` and `.explai on` in a fresh session. -/
theorem dispatch_first_match_witness :
    dongmengdb_shell_handle_cmd sample_engine ".optimizer q" sample_world =
      dongmengdb_shell_handle_cmd_opt sample_engine opt_entry [".optimizer", "q"]
        sample_world ∧
    dongmengdb_shell_handle_cmd sample_engine ".explai on" sample_world =
      (.returned 1,
        { sample_world with stderr := "ERROR: Unrecognized command: .explai\n" }) :=
  ⟨((dispatch_first_match sample_engine ".optimizer q" sample_world (by decide)).2.2.2.2.2.1
      (by decide)).trans (by decide),
   ((dispatch_first_match sample_engine ".explai on" sample_world (by decide)).2.2.2.2.2.2
      (by decide)).trans (by decide)⟩

end DongmenDB
